import Mathlib

/-!
Verification of the parcel regulatory analysis core of zoni_v2.

Shallow embedding conventions:
* Python floats are modelled as exact rationals (`ℚ`); the claims under
  study concern branch structure and exact decimal parsing, not IEEE
  rounding.
* Python dicts read with `.get(k, 0.0)` are modelled as total functions;
  dicts built by insertion are modelled as association lists in insertion
  order.
* Geometry primitives (QGIS `contains`, `intersects`, `length`, raster
  block reads) are external library calls; they enter the embedding as
  oracle inputs, while all decision logic of the repository is translated
  statement by statement.
-/

/-- Models Python str.strip(): drop whitespace from both ends of a
character list. -/
def pyStrip (cs : List Char) : List Char :=
  ((cs.dropWhile Char.isWhitespace).reverse.dropWhile Char.isWhitespace).reverse

/-- Python str.strip() on a string. -/
def stripPy (s : String) : String :=
  String.mk (pyStrip s.data)

/-- Models Python str.upper() for the ASCII letters of zone codes and
street names. -/
def toUpperPy (s : String) : String :=
  String.mk (s.data.map Char.toUpper)

/-- Models Python str.lower() for the ASCII letters it is applied to. -/
def toLowerPy (s : String) : String :=
  String.mk (s.data.map Char.toLower)

/-- Structural prefix test on character lists. -/
def ehPrefixoLista : List Char → List Char → Bool
  | [], _ => true
  | _ :: _, [] => false
  | a :: as, b :: bs => a = b && ehPrefixoLista as bs

/-- Models Python str.startswith. -/
def comecaCom (s pref : String) : Bool :=
  ehPrefixoLista pref.data s.data

/-- Structural occurrence test: does `pat` occur as a contiguous
sublist? -/
def contemLista (pat : List Char) : List Char → Bool
  | [] => ehPrefixoLista pat []
  | c :: resto => ehPrefixoLista pat (c :: resto) || contemLista pat resto

/-- Substring test: models the Python operator `pat in s` for a nonempty
pattern. -/
def containsSub (s pat : String) : Bool :=
  contemLista pat.data s.data

/-- Renders an optional string the way a Python f-string renders the value
(`None` for the absent case). -/
def optStr : Option String → String
  | some s => s
  | none => "None"

/-- Structural lexicographic strict comparison of character lists by code
point, the order Python uses on strings. -/
def ltLista : List Char → List Char → Bool
  | [], [] => false
  | [], _ :: _ => true
  | _ :: _, [] => false
  | a :: as, b :: bs => if a < b then true else if b < a then false else ltLista as bs

/-- Lexicographic ≤ on strings via ltLista. -/
def leStr (s t : String) : Bool :=
  ! ltLista t.data s.data

/-- Models Python `sorted(set(l))` on strings: sort ascending, drop
duplicates. -/
def sortedDedup (l : List String) : List String :=
  (l.insertionSort (fun a b => leStr a b = true)).dedup

/-- From regra_sobreposicao_zoneamento._classificar_zona: classify a zone
code into the broad categories ESPECIAL / EIXO / SEMIEIXO / MACRO / OUTRA
by textual prefix and substring heuristics. -/
def classificarZona (codigo : String) : String :=
  if codigo = "" then "OUTRA"
  else
    let cod := stripPy (toUpperPy codigo)
    if comecaCom cod "ZE" then "ESPECIAL"
    else if
        (["EIXOACESSO", "EIXOORLA", "EU1", "EU2", "EU3", "EU4", "EA", "EO", "EM"].any
          (fun p => comecaCom cod p)) || containsSub cod "EIXO" then "EIXO"
    else if comecaCom cod "SEMI" then "SEMIEIXO"
    else if
        (["MUQ", "MEU", "MUIS", "MUCON", "MUO", "MUPA", "MRO", "MRPA"].any
          (fun p => comecaCom cod p)) then "MACRO"
    else "OUTRA"

/-- From regra_sobreposicao_zoneamento.MACROZONAS_COEXISTENTES. -/
def MACROZONAS_COEXISTENTES : List String :=
  ["MUO", "MUPA1", "MUPA2", "MRPA"]

/-- Diacritic folding for Latin letters: models the effect of Python
`upper()` followed by NFD normalisation plus removal of combining marks,
restricted to the precomposed Latin letters that occur in street names;
all other characters are left unchanged. -/
def removerDiacriticos (c : Char) : Char :=
  if c ∈ ['Á', 'À', 'Â', 'Ã', 'Ä', 'á', 'à', 'â', 'ã', 'ä'] then 'A'
  else if c ∈ ['É', 'È', 'Ê', 'Ë', 'é', 'è', 'ê', 'ë'] then 'E'
  else if c ∈ ['Í', 'Ì', 'Î', 'Ï', 'í', 'ì', 'î', 'ï'] then 'I'
  else if c ∈ ['Ó', 'Ò', 'Ô', 'Õ', 'Ö', 'ó', 'ò', 'ô', 'õ', 'ö'] then 'O'
  else if c ∈ ['Ú', 'Ù', 'Û', 'Ü', 'ú', 'ù', 'û', 'ü'] then 'U'
  else if c ∈ ['Ç', 'ç'] then 'C'
  else if c ∈ ['Ñ', 'ñ'] then 'N'
  else c

/-- From regra_sobreposicao_zoneamento._normalizar_nome_logradouro:
uppercase, strip, remove accents. -/
def normalizarNomeLogradouro (nome : String) : String :=
  if nome = "" then ""
  else String.mk ((stripPy (toUpperPy nome)).data.map removerDiacriticos)

/-- From regra_sobreposicao_zoneamento.MAPA_LOGRADOURO_EIXO. -/
def MAPA_LOGRADOURO_EIXO : List (String × String) :=
  [("AV GOVERNADOR CELSO RAMOS", "EU1")]

/-- From regra_sobreposicao_zoneamento.MAPA_LOGRADOURO_SEMIEIXO. -/
def MAPA_LOGRADOURO_SEMIEIXO : List (String × String) :=
  [("RUA SAO PAULO", "SEMIEIXO"), ("RUA OLINDINA PEIXOTO", "SEMIEIXO")]

/-- From regra_sobreposicao_zoneamento._zona_por_logradouro: axis or
semi-axis zone inferred from a street name, axis patterns first. -/
def zonaPorLogradouro (nome : String) : Option String :=
  if nome = "" then none
  else
    let nomeNorm := normalizarNomeLogradouro nome
    match MAPA_LOGRADOURO_EIXO.find? (fun p => containsSub nomeNorm p.1) with
    | some p => some p.2
    | none =>
        (MAPA_LOGRADOURO_SEMIEIXO.find? (fun p => containsSub nomeNorm p.1)).map (·.2)

/-- From the Nota 37 block of aplicar_regra_sobreposicao: the flag, or a
frontage street name containing both LUCIO and MENDES after
normalisation. -/
def deduzAcessoLucio (nota37Ativada : Bool) (testadasPorLogradouro : List String) : Bool :=
  nota37Ativada ||
    testadasPorLogradouro.any (fun nomeVia =>
      let n := normalizarNomeLogradouro nomeVia
      containsSub n "LUCIO" && containsSub n "MENDES")

/-- Loop body of regra_sobreposicao_zoneamento._zona_maior_area. -/
def zonaMaiorAreaAux (areasPorZona : String → ℚ) :
    Option String → ℚ → List String → Option String
  | melhor, _, [] => melhor
  | melhor, melhorArea, cod :: resto =>
      if areasPorZona cod > melhorArea then
        zonaMaiorAreaAux areasPorZona (some cod) (areasPorZona cod) resto
      else
        zonaMaiorAreaAux areasPorZona melhor melhorArea resto

/-- From regra_sobreposicao_zoneamento._zona_maior_area: first code whose
area strictly exceeds all the areas seen before it (initial best area
-1.0), i.e. the first code attaining the maximal area. -/
def zonaMaiorArea (areasPorZona : String → ℚ) (codigos : List String) : Option String :=
  if codigos = [] then none
  else zonaMaiorAreaAux areasPorZona none (-1) codigos

/-- From regra_sobreposicao_zoneamento.ResultadoRegraSobreposicao. -/
structure ResultadoRegraSobreposicao where
  zonasConsideradas : List String
  zonaPrincipal : Option String
  tipoRegra : String
  motivo : String
  zonasEspeciais : List String
  zonasEixo : List String
  zonasMacros : List String
  deriving Repr, DecidableEq

/-- Merge of frontage-deduced axis/semi-axis zones into the incident zone
set (step 2.b of aplicar_regra_sobreposicao). -/
def zonasComDeducao (zonasUnicas : List String) (testadasPorLogradouro : List String) :
    List String :=
  let zonasDeduzidas := testadasPorLogradouro.filterMap zonaPorLogradouro
  if zonasDeduzidas = [] then zonasUnicas
  else sortedDedup (zonasUnicas ++ zonasDeduzidas)

/-- Rationale text of the SEM_ZONEAMENTO outcome. -/
def motivoSemZoneamento : String :=
  "Nenhuma zona do Anexo III foi identificada sobre o lote. " ++
  "Verificar se a camada de zoneamento está correta ou se o lote " ++
  "está fora da área de abrangência da LC 275/2025."

/-- Rationale text of the Nota 10 outcome. -/
def motivoNota10ZEOT2 : String :=
  "Aplicada a Nota 10 do Anexo III da LC 275/2025: " ++
  "empreendimento com acesso único por logradouro específico " ++
  "na Zona ZEOT2. Para fins de índices urbanísticos e parâmetros " ++
  "urbanos, prevalece a disciplina da ZEOT2 sobre as demais zonas incidentes."

/-- Rationale text of the Nota 37 outcome. -/
def motivoNota37MUQ3 : String :=
  "Aplicada a Nota 37 do Anexo III da LC 275/2025: " ++
  "acesso principal do empreendimento voltado para logradouro " ++
  "classificado como MUQ3 (eixo). Para fins de índices urbanísticos " ++
  "e parâmetros de recuo frontal na testada principal, prevalece MUQ3; " ++
  "demais frentes e parâmetros podem observar as macrozonas incidentes."

/-- Rationale text of the ZONA_ESPECIAL_PREDOMINANTE outcome. -/
def motivoZonaEspecialPredominante (zp : Option String) : String :=
  "Foram identificadas zonas especiais (ZE...) incidentes sobre o lote. " ++
  "Pelas regras de sobreposição do Anexo III, a zona especial de maior área " ++
  "(" ++ optStr zp ++ ") prevalece para definição dos parâmetros urbanísticos principais, " ++
  "sem prejuízo de eventuais condicionantes adicionais de eixos ou macrozonas."

/-- Rationale text of the EIXO_SOBRE_MACRO outcome. -/
def motivoEixoSobreMacro (zp : Option String) : String :=
  "Foram identificadas zonas de eixo urbano em conjunto com macrozonas " ++
  "não protegidas por regime especial de coexistência. " ++
  "O eixo " ++ optStr zp ++ " prevalece para definição dos parâmetros urbanísticos " ++
  "principais, mantendo-se a aplicação das macrozonas variáveis nas " ++
  "demais áreas do lote."

/-- Rationale text of the EIXO_SOBRE_SEMIEIXO outcome. -/
def motivoEixoSobreSemieixo (zp : Option String) : String :=
  "Foram identificadas testadas voltadas simultaneamente para eixo e " ++
  "semieixo urbano. Conforme hierarquia viária da LC 275/2025, o eixo " ++
  optStr zp ++ " prevalece para definição dos parâmetros urbanísticos principais."

/-- Rationale text of the COEXISTENCIA_MACROZONAS_FIXAS outcome. -/
def motivoCoexistenciaMacrozonasFixas : String :=
  "Foram identificadas macrozonas com regime jurídico de coexistência " ++
  "obrigatória (MUO, MUPA, MRPA). Conforme a LC 275/2025, essas zonas " ++
  "não são substituídas por eixos, semieixos ou outras macrozonas, " ++
  "devendo cada uma ser aplicada exclusivamente sobre sua área " ++
  "espacial de incidência no lote ou gleba."

/-- Rationale text of the APENAS_EIXO outcome. -/
def motivoApenasEixo (zp : Option String) : String :=
  "Apenas zonas de eixo urbano foram identificadas sobre o lote, sem " ++
  "macrozona associada na área analisada. Considera-se o eixo de maior " ++
  "área (" ++ optStr zp ++ ") como zona principal, devendo-se complementar a interpretação " ++
  "com a leitura do Plano Diretor e do Anexo III para eventuais ajustes."

/-- Rationale text of the MACRO_UNICA outcome. -/
def motivoMacroUnica (zp : Option String) : String :=
  "Foi identificada uma única macrozona sobre o lote " ++
  "(" ++ optStr zp ++ "). Para fins de parâmetros urbanísticos, aplica-se " ++
  "diretamente a disciplina dessa macrozona, sem sobreposição de eixos."

/-- Rationale text of the MACRO_MULTIPLA outcome; it recommends a
case-by-case technical review of the multiple incident macro zones. -/
def motivoMacroMultipla (zp : Option String) : String :=
  "Foram identificadas múltiplas macrozonas incidentes sobre o lote. " ++
  "A macrozona de maior área (" ++ optStr zp ++ ") tende a ser predominante, porém a " ++
  "interpretação definitiva depende de análise caso a caso, observando " ++
  "as áreas de cada zona, a posição das testadas e o disposto na LC 275/2025."

/-- Rationale text of the SEM_REGRA_ESPECIFICA outcome. -/
def motivoSemRegraEspecifica : String :=
  "Foram identificadas zonas incidentes sobre o lote, mas o conjunto não " ++
  "se enquadra em nenhuma das regras específicas (Nota 10, Nota 37, eixo " ++
  "sobre macrozona ou presença de zona especial ZE...). A definição de zona " ++
  "principal deve ser feita por análise técnica, com base nas áreas relativas " ++
  "de cada zona e na leitura direta da LC 275/2025 e do Plano Diretor."

/-- From regra_sobreposicao_zoneamento.aplicar_regra_sobreposicao: the
zone-overlap rulebook.  Inputs mirror the source: incident zone codes,
area per code (dict read with default 0.0, modelled as a total function),
the frontage street names (the keys of testadas_por_logradouro, in
order), and the two manual note flags. -/
def aplicarRegraSobreposicao
    (zonas : List String)
    (areasPorZona : String → ℚ)
    (testadasPorLogradouro : List String)
    (nota10Ativada : Bool)
    (nota37Ativada : Bool) : ResultadoRegraSobreposicao :=
  let zonasUnicas := sortedDedup zonas
  if zonasUnicas = [] then
    { zonasConsideradas := []
      zonaPrincipal := none
      tipoRegra := "SEM_ZONEAMENTO"
      motivo := motivoSemZoneamento
      zonasEspeciais := []
      zonasEixo := []
      zonasMacros := [] }
  else if nota10Ativada then
    let zonasConsideradas := sortedDedup (zonasUnicas ++ ["ZEOT2"])
    { zonasConsideradas := zonasConsideradas
      zonaPrincipal := some "ZEOT2"
      tipoRegra := "NOTA_10_ZEOT2"
      motivo := motivoNota10ZEOT2
      zonasEspeciais := if "ZEOT2" ∈ zonasConsideradas then ["ZEOT2"] else []
      zonasEixo := zonasConsideradas.filter (fun z => classificarZona z = "EIXO")
      zonasMacros := zonasConsideradas.filter (fun z => classificarZona z = "MACRO") }
  else if deduzAcessoLucio nota37Ativada testadasPorLogradouro then
    let zonasConsideradas := sortedDedup (zonasUnicas ++ ["MUQ3"])
    { zonasConsideradas := zonasConsideradas
      zonaPrincipal := some "MUQ3"
      tipoRegra := "NOTA_37_MUQ3"
      motivo := motivoNota37MUQ3
      zonasEspeciais := zonasConsideradas.filter (fun z => classificarZona z = "ESPECIAL")
      zonasEixo := ["MUQ3"]
      zonasMacros := zonasConsideradas.filter (fun z => classificarZona z = "MACRO") }
  else
    let zonasUnicas := zonasComDeducao zonasUnicas testadasPorLogradouro
    let zonasEspeciais := zonasUnicas.filter (fun z => classificarZona z = "ESPECIAL")
    let zonasEixo := zonasUnicas.filter (fun z => classificarZona z = "EIXO")
    let zonasSemieixo := zonasUnicas.filter (fun z => classificarZona z = "SEMIEIXO")
    let zonasMacros := zonasUnicas.filter (fun z => classificarZona z = "MACRO")
    let _zonasOutras := zonasUnicas.filter (fun z =>
      classificarZona z ≠ "ESPECIAL" ∧ classificarZona z ≠ "EIXO" ∧
      classificarZona z ≠ "SEMIEIXO" ∧ classificarZona z ≠ "MACRO")
    let zonasMacrosFixas := zonasMacros.filter (fun z => z ∈ MACROZONAS_COEXISTENTES)
    let zonasMacrosVariaveis := zonasMacros.filter (fun z => z ∉ MACROZONAS_COEXISTENTES)
    if zonasEspeciais ≠ [] then
      let zp := zonaMaiorArea areasPorZona zonasEspeciais
      { zonasConsideradas := zonasUnicas
        zonaPrincipal := zp
        tipoRegra := "ZONA_ESPECIAL_PREDOMINANTE"
        motivo := motivoZonaEspecialPredominante zp
        zonasEspeciais := zonasEspeciais
        zonasEixo := zonasEixo
        zonasMacros := zonasMacros }
    else if zonasEixo ≠ [] ∧ zonasMacrosVariaveis ≠ [] then
      let zp := zonaMaiorArea areasPorZona zonasEixo
      { zonasConsideradas := zonasUnicas
        zonaPrincipal := zp
        tipoRegra := "EIXO_SOBRE_MACRO"
        motivo := motivoEixoSobreMacro zp
        zonasEspeciais := []
        zonasEixo := zonasEixo
        zonasMacros := zonasMacros }
    else if zonasEixo ≠ [] ∧ zonasSemieixo ≠ [] then
      let zp := zonaMaiorArea areasPorZona zonasEixo
      { zonasConsideradas := zonasUnicas
        zonaPrincipal := zp
        tipoRegra := "EIXO_SOBRE_SEMIEIXO"
        motivo := motivoEixoSobreSemieixo zp
        zonasEspeciais := []
        zonasEixo := zonasEixo
        zonasMacros := zonasMacros }
    else if zonasMacrosFixas ≠ [] then
      { zonasConsideradas := zonasUnicas
        zonaPrincipal := if zonasEixo ≠ [] then zonaMaiorArea areasPorZona zonasEixo else none
        tipoRegra := "COEXISTENCIA_MACROZONAS_FIXAS"
        motivo := motivoCoexistenciaMacrozonasFixas
        zonasEspeciais := []
        zonasEixo := zonasEixo
        zonasMacros := zonasMacros }
    else if zonasEixo ≠ [] ∧ zonasMacros = [] then
      let zp := zonaMaiorArea areasPorZona zonasEixo
      { zonasConsideradas := zonasUnicas
        zonaPrincipal := zp
        tipoRegra := "APENAS_EIXO"
        motivo := motivoApenasEixo zp
        zonasEspeciais := []
        zonasEixo := zonasEixo
        zonasMacros := [] }
    else if zonasMacros ≠ [] ∧ zonasEixo = [] then
      if zonasMacros.length = 1 then
        let zp := zonasMacros.head?
        { zonasConsideradas := zonasUnicas
          zonaPrincipal := zp
          tipoRegra := "MACRO_UNICA"
          motivo := motivoMacroUnica zp
          zonasEspeciais := []
          zonasEixo := []
          zonasMacros := zonasMacros }
      else
        let zp := zonaMaiorArea areasPorZona zonasMacros
        { zonasConsideradas := zonasUnicas
          zonaPrincipal := zp
          tipoRegra := "MACRO_MULTIPLA"
          motivo := motivoMacroMultipla zp
          zonasEspeciais := []
          zonasEixo := []
          zonasMacros := zonasMacros }
    else
      { zonasConsideradas := zonasUnicas
        zonaPrincipal := none
        tipoRegra := "SEM_REGRA_ESPECIFICA"
        motivo := motivoSemRegraEspecifica
        zonasEspeciais := zonasEspeciais
        zonasEixo := zonasEixo
        zonasMacros := zonasMacros }

/-- JSON scalar values as they reach the parameter loader: a string, a
number, or null. -/
inductive JVal where
  | jstr (s : String)
  | jnum (q : ℚ)
  | jnull
  deriving Repr, DecidableEq

/-- From regras_zoneamento.ParametrosZona (extras keeps the JSON entries
not consumed by the nine named fields). -/
structure ParametrosZona where
  codigo : String
  CA_min : Option ℚ := none
  CA_bas : Option ℚ := none
  CA_max : Option ℚ := none
  Tperm : Option ℚ := none
  Tocup : Option ℚ := none
  Npav_bas : Option Int := none
  Npav_max : Option Int := none
  Gab_bas : Option ℚ := none
  Gab_max : Option ℚ := none
  extras : List (String × JVal) := []
  deriving Repr, DecidableEq

/-- From intersecao_zoneamento.ResultadoZoneamento. -/
structure ResultadoZoneamento where
  zona : Option String := none
  macrozona : Option String := none
  eixos : List String := []
  especiais : List String := []
  mensagens : List String := []
  deriving Repr, DecidableEq

/-- From zoneamento_resolvedor.ZonaAplicada. -/
structure ZonaAplicada where
  codigo : String
  tipo : String
  area_m2 : ℚ := 0
  percentual_area : ℚ := 0
  parametros : Option ParametrosZona := none
  notas : List String := []
  origem : String := "INTERSECCAO"
  deriving Repr, DecidableEq

/-- From zoneamento_resolvedor.ZonaResolvida. -/
structure ZonaResolvida where
  zonasAplicadas : List ZonaAplicada := []
  notasAtivas : List String := []
  tipoRegra : String := "NAO_DEFINIDA"
  resumo : String := ""
  observacoes : List String := []
  macrozona : Option String := none
  eixos : List String := []
  especiais : List String := []
  zonaPrincipal : Option String := none
  zonasIncidentes : List String := []
  parametros : Option ParametrosZona := none
  motivo : String := ""
  deriving Repr, DecidableEq

/-- From zoneamento_resolvedor.ZoneamentoResolvedor._classificar_zona:
classification into ESPECIAL / EIXO / AMBIENTAL / MACRO / ORDINARIA. -/
def classificarZonaResolvedor (codigo : String) : String :=
  if codigo = "" then "ORDINARIA"
  else
    let cod := toUpperPy (stripPy codigo)
    if comecaCom cod "ZE" then "ESPECIAL"
    else if comecaCom cod "EU" || comecaCom cod "EIXO" then "EIXO"
    else if comecaCom cod "MUPA" || comecaCom cod "MRO" || comecaCom cod "MRPA" then
      "AMBIENTAL"
    else if comecaCom cod "MUQ" || comecaCom cod "MUO" || comecaCom cod "MUCON" ||
        cod = "MEU" || cod = "MUIS" then "MACRO"
    else if comecaCom cod "MACRO" || comecaCom cod "MZ" then "MACRO"
    else "ORDINARIA"

/-- Python max(lista, key=lambda z: z.area_m2): first element attaining
the maximal area (replacement only on strictly greater key). -/
def maxPorArea : List ZonaAplicada → Option ZonaAplicada
  | [] => none
  | z :: resto =>
      some (resto.foldl (fun melhor atual =>
        if atual.area_m2 > melhor.area_m2 then atual else melhor) z)

/-- From _resolver_sobreposicoes step 3.4: membership in the
MUO/MUQ/MUCON/MEU/MUIS urban-macro coexistence group. -/
def ehMacroCoexistencia (cod : String) : Bool :=
  let c := toUpperPy cod
  comecaCom c "MUQ" || comecaCom c "MUO" || comecaCom c "MUCON" ||
    c = "MEU" || c = "MUIS"

/-- Reference-zone update shared by steps 3.1 and 3.2 of
_resolver_sobreposicoes: when the group is nonempty and no reference zone
was chosen yet, take the code of the group member of largest area. -/
def atualizaRefPorMaior (anterior : Option String) (grupo : List ZonaAplicada) :
    Option String :=
  if grupo ≠ [] ∧ anterior = none then (maxPorArea grupo).map (·.codigo) else anterior

/-- Step 3.8 of _resolver_sobreposicoes: with no reference zone chosen,
fall back to the largest-area candidate. -/
def refFallbackPorMaior (anterior : Option String) (infoZonas candidatos : List ZonaAplicada) :
    Option String :=
  if anterior = none ∧ infoZonas ≠ [] then (maxPorArea candidatos).map (·.codigo)
  else anterior

/-- Raw sextuple returned by _resolver_sobreposicoes. -/
structure ResolvidoCore where
  infoZonas : List ZonaAplicada
  notasAtivas : List String
  tipoRegra : String
  resumo : String
  observacoes : List String
  zonaReferencia : Option String
  deriving Repr, DecidableEq

/-- From zoneamento_resolvedor.ZoneamentoResolvedor._resolver_sobreposicoes,
translated statement by statement: note handling, classification of the
sorted deduplicated zone set, rule-label evolution, and the reference-zone
choice (notes, then largest special, then largest axis, then the 3.8
largest-area non-environmental fallback). -/
def resolverSobreposicoes
    (zonasIncidentes : List String)
    (zonasAreas : String → ℚ)
    (resZon : ResultadoZoneamento)
    (nota10Ativada : Bool)
    (nota37Ativada : Bool) : ResolvidoCore :=
  let zonas := zonasIncidentes.filter (fun z => z ≠ "")
  if zonas = [] then
    { infoZonas := []
      notasAtivas := []
      tipoRegra := "SEM_ZONEAMENTO"
      resumo := "Nenhum zoneamento foi detectado sobre o lote."
      observacoes := []
      zonaReferencia := none }
  else
    let zonasSetLista :=
      zonas ++ resZon.eixos.filter (fun z => z ≠ "") ++
        resZon.especiais.filter (fun z => z ≠ "") ++
        (if nota10Ativada then ["ZEOT2"] else []) ++
        (if nota37Ativada then ["MUQ3"] else [])
    let notasAtivas :=
      (if nota10Ativada then ["10"] else []) ++ (if nota37Ativada then ["37"] else [])
    let resumoParts0 : List String :=
      (if nota10Ativada then
        ["Aplicada Nota 10 (empreendimento com acesso único em ZEOT2)."] else []) ++
      (if nota37Ativada then
        ["Aplicada Nota 37 (lote com frente para a Rua Lúcio Joaquim Mendes em MUQ3)."]
       else [])
    let zonaRef0 : Option String :=
      if nota10Ativada then some "ZEOT2"
      else if nota37Ativada then some "MUQ3" else none
    let tipo0 : String :=
      if nota10Ativada && nota37Ativada then "NOTAS_10_E_37"
      else if nota37Ativada then "NOTA_37_MUQ3"
      else if nota10Ativada then "NOTA_10_ZEOT2"
      else "COEXISTENCIA_SIMPLES"
    let zonasOrdenadas := sortedDedup zonasSetLista
    let areaTotalIncidente := (zonasOrdenadas.map (fun z => zonasAreas z)).sum
    let infoZonas : List ZonaAplicada := zonasOrdenadas.map (fun z =>
      { codigo := z
        tipo := classificarZonaResolvedor z
        area_m2 := zonasAreas z
        percentual_area :=
          if areaTotalIncidente > 0 then zonasAreas z / areaTotalIncidente * 100 else 0
        parametros := none
        notas :=
          (if z = "ZEOT2" ∧ nota10Ativada then ["10"] else []) ++
          (if z = "MUQ3" ∧ nota37Ativada then ["37"] else [])
        origem :=
          if z = "MUQ3" ∧ nota37Ativada then "NOTA37"
          else if z = "ZEOT2" ∧ nota10Ativada then "NOTA10"
          else "INTERSECCAO" })
    let zonasEspeciaisR := infoZonas.filter (fun z => z.tipo = "ESPECIAL")
    let zonasEixosR := infoZonas.filter (fun z => z.tipo = "EIXO")
    let zonasAmbientais := infoZonas.filter (fun z => z.tipo = "AMBIENTAL")
    let zonasMacroR := infoZonas.filter (fun z => z.tipo = "MACRO")
    let zonasOrdinarias := infoZonas.filter (fun z => z.tipo = "ORDINARIA")
    -- 3.1 special zones
    let resumoParts1 := resumoParts0 ++
      (if zonasEspeciaisR ≠ [] then
        ["Zonas Especiais incidentes: " ++
          String.intercalate ", " (zonasEspeciaisR.map (·.codigo)) ++
          ". São consideradas regimes mais restritivos, " ++
          "devendo ser observadas em conjunto com os demais."] else [])
    let zonaRef1 := atualizaRefPorMaior zonaRef0 zonasEspeciaisR
    let tipo1 :=
      if zonasEspeciaisR ≠ [] ∧ zonaRef0 = none ∧ tipo0 = "COEXISTENCIA_SIMPLES" then
        "ESPECIAL_PREDOMINANTE"
      else tipo0
    -- 3.2 axes
    let resumoParts2 := resumoParts1 ++
      (if zonasEixosR ≠ [] then
        ["Incidência de eixo(s)/semieixo(s): " ++
          String.intercalate ", " (zonasEixosR.map (·.codigo)) ++
          ". Para testadas voltadas a estes logradouros, " ++
          "os recuos frontais deverão ser referidos ao eixo da via; " ++
          "para as demais frentes, prevalecem os recuos das " ++
          "macrozonas/zonas ordinárias correspondentes."] else [])
    let zonaRef2 := atualizaRefPorMaior zonaRef1 zonasEixosR
    let tipo2 :=
      if zonasEixosR ≠ [] ∧ tipo1 = "COEXISTENCIA_SIMPLES" then "EIXOS_COEXISTENTES"
      else tipo1
    -- 3.3 environmental macro zones
    let resumoParts3 := resumoParts2 ++
      (if zonasAmbientais ≠ [] then
        ["Macrozona(s) ambiental(is) identificada(s): " ++
          String.intercalate ", " (zonasAmbientais.map (·.codigo)) ++
          ". Esses regimes não são sobrepostos por eixos ou " ++
          "zonas urbanas, devendo ter suas condicionantes ambientais " ++
          "aplicadas proporcionalmente à área incidente."] else [])
    -- 3.4 coexistence of urban macro zones
    let macrosCoexistentes := infoZonas.filter (fun z => ehMacroCoexistencia z.codigo)
    let resumoParts4 := resumoParts3 ++
      (if macrosCoexistentes.length > 1 then
        ["Coexistem macrozonas urbanas do grupo MUO/MUQ/MUCON/MEU/MUIS " ++
          "(" ++ String.intercalate ", " (macrosCoexistentes.map (·.codigo)) ++
          "). Os parâmetros urbanísticos devem ser aplicados " ++
          "proporcionalmente à área de cada macrozona."] else [])
    let tipo4 :=
      if macrosCoexistentes.length > 1 ∧
          (tipo2 = "COEXISTENCIA_SIMPLES" ∨ tipo2 = "EIXOS_COEXISTENTES") then
        "COEXISTENCIA_MACROS_URBANAS"
      else tipo2
    -- 3.5 MUIS together with MEU
    let codigosPresentes := infoZonas.map (fun z => toUpperPy z.codigo)
    let observacoes : List String :=
      if "MUIS" ∈ codigosPresentes ∧ "MEU" ∈ codigosPresentes then
        ["Há coexistência de áreas em MUIS e MEU. " ++
          "Aplica-se o art. 29 da LC 278/2025 quanto à transformação " ++
          "de área de expansão urbana em urbana, com efeitos " ++
          "urbanísticos e tributários imediatos."]
      else []
    -- 3.6 several ordinary zones of equivalent area
    let seisAtiva :=
      zonasEixosR = [] ∧ zonasEspeciaisR = [] ∧ zonasMacroR = [] ∧
        zonasOrdinarias.length > 1 ∧
        (let ordOrdenadas := zonasOrdinarias.insertionSort
            (fun a b => a.area_m2 ≥ b.area_m2)
         ordOrdenadas.length ≥ 2 ∧ areaTotalIncidente > 0 ∧
           |((ordOrdenadas.get? 0).map (·.area_m2)).getD 0 -
             ((ordOrdenadas.get? 1).map (·.area_m2)).getD 0| / areaTotalIncidente <
             5 / 100)
    let resumoParts6 := resumoParts4 ++
      (if seisAtiva then
        ["Foram identificadas múltiplas zonas ordinárias " ++
          "com áreas equivalentes. Cada zona deve ser " ++
          "aplicada na sua respectiva área de interseção, " ++
          "sem eleição de uma zona única predominante " ++
          "para o lote/gleba."] else [])
    let tipo6 :=
      if seisAtiva ∧ tipo4 = "COEXISTENCIA_SIMPLES" then
        "COEXISTENCIA_ORDINARIAS_EQUIVALENTES"
      else tipo4
    -- 3.7 plain coexistence when nothing specific was recorded
    let resumoParts7 :=
      if resumoParts6 = [] then
        ["Coexistência simples de zoneamentos incidentes sobre o lote, " ++
          "sem regra específica de prevalência codificada. Cada zona " ++
          "deve ser aplicada na sua área correspondente."]
      else resumoParts6
    -- 3.8 fallback reference zone by largest area, preferring non-environmental
    let candidatos0 := infoZonas.filter (fun z => z.tipo ≠ "AMBIENTAL")
    let candidatos := if candidatos0 = [] then infoZonas else candidatos0
    let zonaRefFinal := refFallbackPorMaior zonaRef2 infoZonas candidatos
    let tipo8 :=
      if zonaRef2 = none ∧ infoZonas ≠ [] ∧ tipo6 = "COEXISTENCIA_SIMPLES" then
        "ZONA_PREDOMINANTE"
      else tipo6
    let resumoParts8 := resumoParts7 ++
      (if zonaRef2 = none ∧ infoZonas ≠ [] then
        ["Para fins de síntese dos índices urbanísticos, " ++
          "adota-se a zona \x27" ++ optStr zonaRefFinal ++ "\x27 como zona de referência " ++
          "por possuir maior área incidente no lote/gleba."] else [])
    { infoZonas := infoZonas
      notasAtivas := notasAtivas
      tipoRegra := tipo8
      resumo := String.intercalate " " resumoParts8
      observacoes := observacoes
      zonaReferencia := zonaRefFinal }

/-- From zoneamento_lote.ResultadoZoneamentoGeom. -/
structure ResultadoZoneamentoGeom where
  zonas : List String
  areasPorZona : List (String × ℚ)
  areaTotalZoneada : ℚ
  percentuais : List (String × ℚ)
  deriving Repr, DecidableEq

/-- Dict read with default: models areas_por_zona.get(z, 0.0) on the
association list built by the decomposer. -/
def obterArea (l : List (String × ℚ)) (z : String) : ℚ :=
  ((l.find? (fun p => p.1 = z)).map (·.2)).getD 0

/-- From zoneamento_resolvedor.ZoneamentoResolvedor.resolver: assembles the
incident zone list (geometric zones plus the raw best-intersection zone),
runs _resolver_sobreposicoes, attaches JSON parameters to each applied
zone and to the legacy reference-zone fields.  The loaded parameter table
is passed as a lookup function. -/
def resolver
    (parametrosPorZona : String → Option ParametrosZona)
    (resZon : ResultadoZoneamento)
    (resGeom : ResultadoZoneamentoGeom)
    (nota10Ativada : Bool)
    (nota37Ativada : Bool) : ZonaResolvida :=
  let zonasIncidentes := resGeom.zonas ++
    (match resZon.zona with
     | some z => if z ≠ "" ∧ z ∉ resGeom.zonas then [z] else []
     | none => [])
  let zonasAreas := obterArea resGeom.areasPorZona
  let nucleo := resolverSobreposicoes zonasIncidentes zonasAreas resZon
    nota10Ativada nota37Ativada
  let zonasAplicadas := nucleo.infoZonas.map (fun za =>
    match parametrosPorZona za.codigo with
    | some p => { za with parametros := some p }
    | none => za)
  let eixos := (zonasAplicadas.filter (fun z => z.tipo = "EIXO")).map (·.codigo)
  let especiais := (zonasAplicadas.filter (fun z => z.tipo = "ESPECIAL")).map (·.codigo)
  let parametrosLegado :=
    match nucleo.zonaReferencia with
    | some z => parametrosPorZona z
    | none => none
  { zonasAplicadas := zonasAplicadas
    notasAtivas := nucleo.notasAtivas
    tipoRegra := nucleo.tipoRegra
    resumo := nucleo.resumo
    observacoes := nucleo.observacoes
    macrozona := resZon.macrozona
    eixos := eixos
    especiais := especiais
    zonaPrincipal := nucleo.zonaReferencia
    zonasIncidentes := sortedDedup (zonasAplicadas.map (·.codigo))
    parametros := parametrosLegado
    motivo := "" }

/-- Violation entries appended to `pendencias` by
regras_zoneamento.avaliar_edificacao_na_zona.  Each constructor carries
the zone code and the two compared values of the corresponding formatted
message (the f-string rendering itself is presentation and is modelled by
the tag plus its payload). -/
inductive Pendencia where
  | caInferior (zona : String) (caReal caMin : ℚ)
  | caSuperior (zona : String) (caReal caMax : ℚ)
  | tocupSuperior (zona : String) (tocupReal tocupMax : ℚ)
  | tpermInferior (zona : String) (tpermReal tpermMin : ℚ)
  | npavSuperior (zona : String) (npav npavMax : Int)
  | gabSuperior (zona : String) (altura gabMax : ℚ)
  deriving Repr, DecidableEq

/-- Advisory entries appended to `observacoes` by
avaliar_edificacao_na_zona, one per omitted scenario field. -/
inductive Observacao where
  | caNaoAvaliado
  | tocupNaoAvaliada
  | tpermNaoAvaliada
  | npavNaoInformado
  | alturaNaoInformada
  deriving Repr, DecidableEq

/-- From regras_zoneamento.ResultadoAvaliacaoZona. -/
structure ResultadoAvaliacaoZona where
  zona : String
  parametros : ParametrosZona
  conforme : Bool
  pendencias : List Pendencia := []
  observacoes : List Observacao := []
  valoresCalculados : List (String × ℚ) := []
  deriving Repr, DecidableEq

/-- CA (floor-area ratio) block of avaliar_edificacao_na_zona: pendencias,
observacoes and computed values contributed by the built-area field. -/
def blocoAvaliacaoCA (zona : String) (parametros : ParametrosZona) (areaLote : ℚ)
    (areaConstruidaTotal : Option ℚ) :
    List Pendencia × List Observacao × List (String × ℚ) :=
  match areaConstruidaTotal with
  | some ac =>
      let caReal := ac / areaLote
      ((match parametros.CA_min with
        | some camin =>
            if caReal < camin - 1 / 1000000 then [Pendencia.caInferior zona caReal camin]
            else []
        | none => []) ++
       (match parametros.CA_max with
        | some camax =>
            if caReal > camax + 1 / 1000000 then [Pendencia.caSuperior zona caReal camax]
            else []
        | none => []),
       [], [("CA_real", caReal)])
  | none => ([], [Observacao.caNaoAvaliado], [])

/-- Occupancy-ratio block of avaliar_edificacao_na_zona. -/
def blocoAvaliacaoTocup (zona : String) (parametros : ParametrosZona) (areaLote : ℚ)
    (areaOcupadaProjecao : Option ℚ) :
    List Pendencia × List Observacao × List (String × ℚ) :=
  match areaOcupadaProjecao with
  | some ao =>
      let tocupReal := ao / areaLote
      ((match parametros.Tocup with
        | some tocup =>
            if tocupReal > tocup + 1 / 1000000 then
              [Pendencia.tocupSuperior zona tocupReal tocup]
            else []
        | none => []),
       [], [("Tocup_real", tocupReal)])
  | none => ([], [Observacao.tocupNaoAvaliada], [])

/-- Permeability-ratio block of avaliar_edificacao_na_zona. -/
def blocoAvaliacaoTperm (zona : String) (parametros : ParametrosZona) (areaLote : ℚ)
    (areaPermeavel : Option ℚ) :
    List Pendencia × List Observacao × List (String × ℚ) :=
  match areaPermeavel with
  | some ap =>
      let tpermReal := ap / areaLote
      ((match parametros.Tperm with
        | some tperm =>
            if tpermReal + 1 / 1000000 < tperm then
              [Pendencia.tpermInferior zona tpermReal tperm]
            else []
        | none => []),
       [], [("Tperm_real", tpermReal)])
  | none => ([], [Observacao.tpermNaoAvaliada], [])

/-- Story-count block of avaliar_edificacao_na_zona. -/
def blocoAvaliacaoNpav (zona : String) (parametros : ParametrosZona)
    (numeroPavimentos : Option Int) :
    List Pendencia × List Observacao × List (String × ℚ) :=
  match numeroPavimentos with
  | some np =>
      ((match parametros.Npav_max with
        | some npmax => if np > npmax then [Pendencia.npavSuperior zona np npmax] else []
        | none => []),
       [], [("Npav_real", (np : ℚ))])
  | none => ([], [Observacao.npavNaoInformado], [])

/-- Height block of avaliar_edificacao_na_zona. -/
def blocoAvaliacaoGab (zona : String) (parametros : ParametrosZona)
    (alturaMaxima : Option ℚ) :
    List Pendencia × List Observacao × List (String × ℚ) :=
  match alturaMaxima with
  | some alt =>
      ((match parametros.Gab_max with
        | some gabmax =>
            if alt > gabmax + 1 / 100 then [Pendencia.gabSuperior zona alt gabmax]
            else []
        | none => []),
       [], [("Gab_real", alt)])
  | none => ([], [Observacao.alturaNaoInformada], [])

/-- From regras_zoneamento.avaliar_edificacao_na_zona: raises (modelled as
`Except.error`) when the parcel area is not positive, otherwise checks
each supplied scenario field against the zone parameters with tolerance
1e-6 (1/100 for height) and records an advisory for each omitted field;
conformity is the absence of pendencias. -/
def avaliarEdificacaoNaZona
    (zona : String)
    (parametros : ParametrosZona)
    (areaLote : ℚ)
    (areaConstruidaTotal : Option ℚ := none)
    (areaOcupadaProjecao : Option ℚ := none)
    (areaPermeavel : Option ℚ := none)
    (alturaMaxima : Option ℚ := none)
    (numeroPavimentos : Option Int := none) :
    Except String ResultadoAvaliacaoZona :=
  if areaLote ≤ 0 then
    Except.error "Área do lote deve ser maior que zero."
  else
    let blocoCA := blocoAvaliacaoCA zona parametros areaLote areaConstruidaTotal
    let blocoTocup := blocoAvaliacaoTocup zona parametros areaLote areaOcupadaProjecao
    let blocoTperm := blocoAvaliacaoTperm zona parametros areaLote areaPermeavel
    let blocoNpav := blocoAvaliacaoNpav zona parametros numeroPavimentos
    let blocoGab := blocoAvaliacaoGab zona parametros alturaMaxima
    let pendencias :=
      blocoCA.1 ++ blocoTocup.1 ++ blocoTperm.1 ++ blocoNpav.1 ++ blocoGab.1
    let observacoes :=
      blocoCA.2.1 ++ blocoTocup.2.1 ++ blocoTperm.2.1 ++ blocoNpav.2.1 ++ blocoGab.2.1
    let valores :=
      blocoCA.2.2 ++ blocoTocup.2.2 ++ blocoTperm.2.2 ++ blocoNpav.2.2 ++ blocoGab.2.2
    Except.ok
      { zona := zona
        parametros := parametros
        conforme := pendencias.length = 0
        pendencias := pendencias
        observacoes := observacoes
        valoresCalculados := valores }

/-- The regulated quantity a pendência refers to: 0 for the floor-area
ratio, 1 for occupancy, 2 for permeability, 3 for story count, 4 for
height. -/
def kindPendencia : Pendencia → ℕ
  | .caInferior .. => 0
  | .caSuperior .. => 0
  | .tocupSuperior .. => 1
  | .tpermInferior .. => 2
  | .npavSuperior .. => 3
  | .gabSuperior .. => 4

/-- Value of a decimal digit list base 10 (most significant first). -/
def natOfDigits (cs : List Char) : ℕ :=
  cs.foldl (fun n c => 10 * n + (c.toNat - '0'.toNat)) 0

/-- Split a character list on a separator character (the single-character
case of Python str.split / the float parser's integer-fraction cut). -/
def splitOnChar (sep : Char) : List Char → List (List Char)
  | [] => [[]]
  | c :: resto =>
      let r := splitOnChar sep resto
      if c = sep then [] :: r
      else
        match r with
        | [] => [[c]]
        | h :: t => (c :: h) :: t

/-- Models the decimal-literal fragment of Python float(): optional sign,
digits with at most one dot, at least one digit overall.  Exponents,
underscores, and inf/nan are outside the fragment exercised by the
parameter table and are rejected. -/
def pyFloatChars (cs : List Char) : Option ℚ :=
  let corpo : ℚ × List Char :=
    match cs with
    | '+' :: resto => (1, resto)
    | '-' :: resto => (-1, resto)
    | resto => (1, resto)
  match splitOnChar '.' corpo.2 with
  | [a] =>
      if a ≠ [] ∧ a.all Char.isDigit then some (corpo.1 * natOfDigits a) else none
  | [a, b] =>
      if (a ≠ [] ∨ b ≠ []) ∧ a.all Char.isDigit ∧ b.all Char.isDigit then
        some (corpo.1 * ((natOfDigits a : ℚ) + (natOfDigits b : ℚ) / 10 ^ b.length))
      else none
  | _ => none

/-- Models Python float(s) on decimal literals: strip, then parse. -/
def pyFloat (s : String) : Option ℚ :=
  pyFloatChars (pyStrip s.data)

/-- Models Python int(s): strip, optional sign, then decimal digits only;
any other character (a dot or comma in particular) raises ValueError,
modelled as `none`. -/
def pyInt (s : String) : Option Int :=
  let corpo : Int × List Char :=
    match pyStrip s.data with
    | '+' :: resto => (1, resto)
    | '-' :: resto => (-1, resto)
    | resto => (1, resto)
  if corpo.2 ≠ [] ∧ corpo.2.all Char.isDigit then
    some (corpo.1 * natOfDigits corpo.2)
  else none

/-- From carregar_parametros_de_arquivo._conv: on a string, strip, delete
every dot, turn the comma into a dot, then float() with failures mapped
to None; non-string values pass through (None stays None). -/
def conv : Option JVal → Option ℚ
  | some (JVal.jstr s) =>
      let v := ((pyStrip s.data).filter (fun c => c ≠ '.')).map
        (fun c => if c = ',' then '.' else c)
      pyFloatChars (pyStrip v)
  | some (JVal.jnum q) => some q
  | some JVal.jnull => none
  | none => none

/-- Truncation toward zero, the conversion Python int() applies to a
float argument. -/
def truncarRacional (q : ℚ) : Int :=
  if q ≥ 0 then ⌊q⌋ else ⌈q⌉

/-- Models Python int(valor) for a JSON value: a string must be a plain
integer literal (otherwise ValueError), a number is truncated toward
zero; None is excluded by the caller's guard (int(None) would raise). -/
def pyIntDeJVal : JVal → Option Int
  | JVal.jstr s => pyInt s
  | JVal.jnum q => some (truncarRacional q)
  | JVal.jnull => none

/-- From the Npav_bas / Npav_max lines of carregar_parametros_de_arquivo:
`int(indices[k]) if k in indices and indices[k] is not None else None`.
The int() call is not wrapped in try/except, so a failure aborts the
whole load (`Except.error`). -/
def convNpav : Option JVal → Except Unit (Option Int)
  | none => Except.ok none
  | some JVal.jnull => Except.ok none
  | some v =>
      match pyIntDeJVal v with
      | some n => Except.ok (some n)
      | none => Except.error ()

/-- Dict read on the `indices` JSON object. -/
def obterIndice (indices : List (String × JVal)) (k : String) : Option JVal :=
  (indices.find? (fun p => p.1 = k)).map (·.2)

/-- The nine named numeric index fields of the parameter table. -/
def CAMPOS_INDICES_NOMEADOS : List String :=
  ["CA_min", "CA_bas", "CA_max", "Tperm", "Tocup",
   "Npav_bas", "Npav_max", "Gab_bas", "Gab_max"]

/-- One entry of carregar_parametros_de_arquivo: builds the
ParametrosZona record for a zone code from its `indices` object (items in
JSON order); `none` models the uncaught ValueError raised by int() on a
malformed story-count string, which makes the whole file load fail. -/
def carregarParametrosEntrada (codigo : String) (indices : List (String × JVal)) :
    Option ParametrosZona :=
  match convNpav (obterIndice indices "Npav_bas"),
      convNpav (obterIndice indices "Npav_max") with
  | Except.ok nb, Except.ok nm =>
      some
        { codigo := codigo
          CA_min := conv (obterIndice indices "CA_min")
          CA_bas := conv (obterIndice indices "CA_bas")
          CA_max := conv (obterIndice indices "CA_max")
          Tperm := conv (obterIndice indices "Tperm")
          Tocup := conv (obterIndice indices "Tocup")
          Npav_bas := nb
          Npav_max := nm
          Gab_bas := conv (obterIndice indices "Gab_bas")
          Gab_max := conv (obterIndice indices "Gab_max")
          extras := indices.filter (fun p => p.1 ∉ CAMPOS_INDICES_NOMEADOS) }
  | _, _ => none

/-- From zoneamento_lote.CAMPOS_CODIGO_ZONA_CANDIDATOS. -/
def CAMPOS_CODIGO_ZONA_CANDIDATOS : List String :=
  ["Zoneamento", "zoneamento", "ZONA", "zona", "ZONE", "zone",
   "CODIGO", "Codigo", "codigo", "COD_ZONA", "cod_zona"]

/-- One zoning feature as seen by calcular_zoneamento_incidente: the
geometry tests and the intersection area are QGIS calls and enter as
recorded outcomes; `atributoCodigo` is str(feat[idx_codigo]). -/
structure FeicaoZon where
  geomVazia : Bool
  intersecta : Bool
  interVazia : Bool
  areaInter : ℚ
  atributoCodigo : String
  deriving Repr, DecidableEq

/-- The zoning layer: its attribute field names and its features. -/
structure CamadaZoneamento where
  campos : List String
  feicoes : List FeicaoZon
  deriving Repr, DecidableEq

/-- From zoneamento_lote.detectar_campo_codigo_zona: a forced field is
used when truthy and present, otherwise the first candidate present. -/
def detectarCampoCodigoZona (camada : Option CamadaZoneamento)
    (campoForcado : Option String) : Option String :=
  match camada with
  | none => none
  | some c =>
      if (match campoForcado with
          | some f => decide (f ≠ "" ∧ f ∈ c.campos)
          | none => false) then campoForcado
      else CAMPOS_CODIGO_ZONA_CANDIDATOS.find? (fun nome => nome ∈ c.campos)

/-- Dict accumulation `d[k] = d.get(k, 0.0) + a` on an insertion-ordered
association list. -/
def acumularArea (l : List (String × ℚ)) (cod : String) (a : ℚ) : List (String × ℚ) :=
  if (l.find? (fun p => p.1 = cod)).isSome then
    l.map (fun p => if p.1 = cod then (p.1, p.2 + a) else p)
  else l ++ [(cod, a)]

/-- The per-feature accumulation step of the loop of
calcular_zoneamento_incidente (continue on empty geometry, no
intersection, empty intersection, non-positive area or blank code). -/
def passoAreaZona (acc : List (String × ℚ)) (f : FeicaoZon) : List (String × ℚ) :=
  if f.geomVazia then acc
  else if ¬ f.intersecta then acc
  else if f.interVazia then acc
  else if f.areaInter ≤ 0 then acc
  else
    let cod := stripPy f.atributoCodigo
    if cod = "" then acc
    else acumularArea acc cod f.areaInter

/-- From zoneamento_lote.calcular_zoneamento_incidente: empty result for
an empty parcel, an absent layer or an undetectable zone-code field;
otherwise area accumulated per trimmed zone code over the features,
discarding empty geometries, non-intersecting features, empty
intersections, non-positive intersection areas and blank codes. -/
def calcularZoneamentoIncidente (loteVazio : Bool)
    (camada : Option CamadaZoneamento)
    (campoForcado : Option String) : ResultadoZoneamentoGeom :=
  if loteVazio then ⟨[], [], 0, []⟩
  else
    match camada with
    | none => ⟨[], [], 0, []⟩
    | some c =>
        match detectarCampoCodigoZona (some c) campoForcado with
        | none => ⟨[], [], 0, []⟩
        | some _ =>
            let areasPorZona := c.feicoes.foldl passoAreaZona []
            if areasPorZona = [] then ⟨[], [], 0, []⟩
            else
              let zonas := sortedDedup (areasPorZona.map (·.1))
              let areaTotal := (areasPorZona.map (·.2)).sum
              let percentuais :=
                if areaTotal ≤ 0 then zonas.map (fun z => (z, (0 : ℚ)))
                else zonas.map (fun z => (z, obterArea areasPorZona z * 100 / areaTotal))
              { zonas := zonas
                areasPorZona := areasPorZona
                areaTotalZoneada := areaTotal
                percentuais := percentuais }

/-- A planar point in a metric CRS. -/
def Ponto : Type := ℚ × ℚ

/-- A perimeter edge between two consecutive ring vertices. -/
def Segmento : Type := Ponto × Ponto

/-- From testadas._segmentar_borda_lote: every ring (outer or inner, of
any polygon part) yields its consecutive-vertex edges; rings with fewer
than two points contribute nothing.  A two-point polyline from
fromPolylineXY is never empty, so the isEmpty skip never fires. -/
def segmentarBordaLote (aneis : List (List Ponto)) : List Segmento :=
  aneis.foldr (fun anel acc => anel.zip anel.tail ++ acc) []

/-- From testadas.SegmentoTestada. -/
structure SegmentoTestada where
  idSegmento : ℕ
  geom : Segmento
  comprimento : ℚ
  logradouro : Option String := none
  tipoLimite : String := "DIVISA"
  confrontante : Option String := none

/-- From testadas.ResultadoTestadas. -/
structure ResultadoTestadas where
  segmentos : List SegmentoTestada
  testadasPorLogradouro : List (String × ℚ)
  confrontantesPorProprietario : List (String × ℚ) := []

/-- One road feature candidate returned by the spatial index for the ray
cast of calcular_testadas_e_logradouros (lines 504-531): presence in
vias_por_id, geometry emptiness, intersection with the ray, distance to
the segment midpoint, and the street-name attribute (None on KeyError or
a null value). -/
structure CandidatoVia where
  presente : Bool
  geomVazia : Bool
  intersectaRaio : Bool
  dist : ℚ
  nome : Option String

/-- Oracles consumed by the boundary classifier: segment length, the
outward-normal probe (_normal_e_ponto_fora), layer presence and detected
attribute fields, the neighbor-parcel containment test, the confronting
owner lookup, and the road candidates of the ray cast.  All of these are
QGIS spatial queries; the classification logic below is the source's. -/
structure AmbienteTestadas where
  comprimento : Segmento → ℚ
  normalEPontoFora : Segmento → Option Ponto
  temLotes : Bool
  temVias : Bool
  campoNomeLog : Option String
  campoProprietario : Option String
  pontoCaiEmAlgumLote : Ponto → Bool
  obterConfrontante : Ponto → Option String
  viasCandidatas : Segmento → List CandidatoVia

/-- Python truthiness of an optional string. -/
def opTruthy : Option String → Bool
  | some s => s ≠ ""
  | none => false

/-- The nearest-road selection loop of calcular_testadas_e_logradouros:
skip absent, empty or non-intersecting candidates, keep the first
candidate of strictly smallest distance. -/
def melhorVia (candidatos : List CandidatoVia) : Option CandidatoVia :=
  candidatos.foldl (fun melhor c =>
    if ¬ c.presente ∨ c.geomVazia ∨ ¬ c.intersectaRaio then melhor
    else
      match melhor with
      | none => some c
      | some m => if c.dist < m.dist then some c else melhor) none

/-- The street-name attribution block: only with a road layer and a
detected name field, from the nearest intersecting candidate. -/
def buscarLogradouro (env : AmbienteTestadas) (seg : Segmento) : Option String :=
  if env.temVias ∧ env.campoNomeLog.isSome then
    match melhorVia (env.viasCandidatas seg) with
    | some via => via.nome
    | none => none
  else none

/-- Classification of one boundary segment (the body of the main loop of
calcular_testadas_e_logradouros): default DIVISA; with an outward probe
point, a containing neighbor parcel makes a DIVISA with an optional
confronting owner; otherwise a truthy street name from the ray cast makes
a TESTADA, and anything else stays DIVISA. -/
def classificarSegmento (env : AmbienteTestadas) (seg : Segmento) :
    Option String × String × Option String :=
  match env.normalEPontoFora seg with
  | none => (none, "DIVISA", none)
  | some ptFora =>
      let temLoteConfrontante := env.temLotes ∧ env.pontoCaiEmAlgumLote ptFora
      if temLoteConfrontante then
        let confrontante :=
          if env.campoProprietario.isSome then env.obterConfrontante ptFora else none
        (none, "DIVISA", confrontante)
      else
        let logradouro := buscarLogradouro env seg
        if opTruthy logradouro then (logradouro, "TESTADA", none)
        else (logradouro, "DIVISA", none)

/-- The body of the main loop of calcular_testadas_e_logradouros for one
enumerated border segment: skip it when its length is not positive,
otherwise classify it, append the segment record and accumulate its
length under the street or the confronting owner. -/
def passoTestada (env : AmbienteTestadas)
    (st : List SegmentoTestada × List (String × ℚ) × List (String × ℚ))
    (par : ℕ × Segmento) :
    List SegmentoTestada × List (String × ℚ) × List (String × ℚ) :=
  let idxSeg := par.1 + 1
  let seg := par.2
  let comp := env.comprimento seg
  if comp ≤ 0 then st
  else
    let classe := classificarSegmento env seg
    let registro : SegmentoTestada :=
      { idSegmento := idxSeg
        geom := seg
        comprimento := comp
        logradouro := classe.1
        tipoLimite := classe.2.1
        confrontante := classe.2.2 }
    let testadas :=
      if opTruthy classe.1 then acumularArea st.2.1 (classe.1.getD "") comp
      else st.2.1
    let confrontantes :=
      if classe.2.1 = "DIVISA" ∧ opTruthy classe.2.2 then
        acumularArea st.2.2 (classe.2.2.getD "") comp
      else st.2.2
    (st.1 ++ [registro], testadas, confrontantes)

/-- From testadas.calcular_testadas_e_logradouros: segment the border,
skip zero-length segments, classify each remaining segment, and
accumulate frontage length per street and divide length per confronting
owner. -/
def calcularTestadasELogradouros (env : AmbienteTestadas) (loteVazio : Bool)
    (aneis : List (List Ponto)) : ResultadoTestadas :=
  if loteVazio then ⟨[], [], []⟩
  else
    let segmentosGeom := segmentarBordaLote aneis
    let estadoFinal := segmentosGeom.enum.foldl (passoTestada env) ([], [], [])
    { segmentos := estadoFinal.1
      testadasPorLogradouro := estadoFinal.2.1
      confrontantesPorProprietario := estadoFinal.2.2 }

/-- From intersecao_inclinacao.classificar_inclinacao: the six regulatory
bands by degree threshold, the last one flagged as APP. -/
def classificarInclinacao (valorGraus : ℚ) : ℕ × String × Bool :=
  if valorGraus ≤ 3 then (1, "≤ 3°", false)
  else if valorGraus ≤ 8 then (2, "3° - 8°", false)
  else if valorGraus ≤ 15 then (3, "8° - 15°", false)
  else if valorGraus ≤ 30 then (4, "15° - 30°", false)
  else if valorGraus ≤ 45 then (5, "30° - 45°", false)
  else (6, "> 45° (APP)", true)

/-- From intersecao_inclinacao.obter_categorias_completas:
(id, label, color, app flag, min, max) per band. -/
def obterCategoriasCompletas : List (ℕ × String × String × Bool × ℚ × ℚ) :=
  [(1, "≤ 3°", "#1a9641", false, 0, 3),
   (2, "3° - 8°", "#fbfdbc", false, 3, 8),
   (3, "8° - 15°", "#fee4a1", false, 8, 15),
   (4, "15° - 30°", "#fec981", false, 15, 30),
   (5, "30° - 45°", "#fdae61", false, 30, 45),
   (6, "> 45° (APP)", "#d7191c", true, 45, 90)]

/-- One slope band entry of ResultadoInclinacao.faixas.  The real
analysis fills the band bounds and the pixel count; the fabricated
example entries of motor_analise_lote carry neither, hence the optional
fields. -/
structure FaixaInclinacao where
  faixa : String
  area_m2 : ℚ
  percentual : ℚ
  cor : String
  app : Bool
  minGraus : Option ℚ := none
  maxGraus : Option ℚ := none
  contagem : Option ℕ := none
  deriving Repr, DecidableEq

/-- From intersecao_inclinacao.ResultadoInclinacao.  The debug-only
`estatisticas` dict is elided; no claim touches it. -/
structure ResultadoInclinacao where
  faixas : List FaixaInclinacao
  areaTotal : ℚ
  areaAppInclinacao : ℚ
  percentualAppInclinacao : ℚ
  mensagens : List String
  temAppPorInclinacao : Bool
  deriving Repr, DecidableEq

/-- From intersecao_inclinacao._resultado_erro_objeto: the explicit
unavailable variant with a diagnostic message and no band data. -/
def resultadoErroObjeto (mensagem : String) : ResultadoInclinacao :=
  { faixas := []
    areaTotal := 0
    areaAppInclinacao := 0
    percentualAppInclinacao := 0
    mensagens := [mensagem]
    temAppPorInclinacao := false }

/-- Rounding to two decimal places; ties behave as round-half-up here,
while Python floats round half-to-even — no claim depends on ties. -/
def arredondar2 (q : ℚ) : ℚ :=
  (⌊q * 100 + 1 / 2⌋ : ℚ) / 100

/-- Decimal rendering of a rational, standing in for the f-string float
formatting of the informational messages (presentation only). -/
def formatar2 (q : ℚ) : String :=
  toString (arredondar2 q)

/-- The slope raster as seen by analisar_inclinacao_terreno: validity,
name, pixel resolution, whether the raster/parcel bounding-box
intersection is empty, whether the block read succeeds, the no-data
value, the block dimensions derived from the clipped extent, the pixel
values, and the center-in-parcel containment test (the last two are QGIS
reads, recorded as functions of row and column). -/
structure CamadaRasterIncl where
  valida : Bool
  nome : String
  xRes : ℚ
  yRes : ℚ
  extentIntersecaoVazia : Bool
  blocoLegivel : Bool
  noData : Option ℚ
  linhas : ℕ
  colunas : ℕ
  valor : ℕ → ℕ → ℚ
  centroDentroDoLote : ℕ → ℕ → Bool

/-- All (row, col) pairs of the clipped block. -/
def pixeisGrade (cam : CamadaRasterIncl) : List (ℕ × ℕ) :=
  (List.range cam.linhas).flatMap (fun r => (List.range cam.colunas).map (fun c => (r, c)))

/-- The no-data skip of the pixel loop. -/
def pixelNoData (cam : CamadaRasterIncl) (v : ℚ) : Bool :=
  match cam.noData with
  | some nd => |v - nd| < 1 / 10000
  | none => false

/-- A pixel counted as valid by the loop: center inside the parcel, not
no-data, value in the accepted 0-90 degree range. -/
def pixelValido (cam : CamadaRasterIncl) (rc : ℕ × ℕ) : Bool :=
  cam.centroDentroDoLote rc.1 rc.2 ∧
    ¬ pixelNoData cam (cam.valor rc.1 rc.2) ∧
    0 ≤ cam.valor rc.1 rc.2 ∧ cam.valor rc.1 rc.2 ≤ 90

/-- Pixels whose center falls inside the parcel (pixels_totais). -/
def pixeisTotais (cam : CamadaRasterIncl) : ℕ :=
  ((pixeisGrade cam).filter (fun rc => cam.centroDentroDoLote rc.1 rc.2)).length

/-- Valid pixels (pixels_validos). -/
def pixeisValidos (cam : CamadaRasterIncl) : ℕ :=
  ((pixeisGrade cam).filter (fun rc => pixelValido cam rc)).length

/-- Valid pixels classified into band `cat` (contadores[cat]). -/
def contadorCategoria (cam : CamadaRasterIncl) (cat : ℕ) : ℕ :=
  ((pixeisGrade cam).filter (fun rc =>
    pixelValido cam rc ∧ (classificarInclinacao (cam.valor rc.1 rc.2)).1 = cat)).length

/-- From intersecao_inclinacao.analisar_inclinacao_terreno: the guard
cascade (invalid layer, empty parcel, raster not covering the parcel,
unreadable block, zero valid pixels) each yields the explicit
unavailable variant; otherwise per-band areas and percentages are
computed from the pixel counts, band 6 being the protected (APP) area.
The band list is built in category order, which is already the sorted
display order. -/
def analisarInclinacaoTerreno (cam : CamadaRasterIncl) (loteVazio : Bool)
    (areaLote : Option ℚ) : ResultadoInclinacao :=
  if ¬ cam.valida then resultadoErroObjeto "Camada de inclinação inválida"
  else if loteVazio then resultadoErroObjeto "Geometria do lote vazia"
  else if cam.extentIntersecaoVazia then
    resultadoErroObjeto "Raster não cobre a área do lote"
  else if ¬ cam.blocoLegivel then
    resultadoErroObjeto "Não foi possível ler dados do raster"
  else if pixeisValidos cam = 0 then
    resultadoErroObjeto "Nenhum pixel válido dentro do lote"
  else
    let areaPixel := |cam.xRes * cam.yRes|
    let validos := pixeisValidos cam
    let areaTotal := (validos : ℚ) * areaPixel
    let resultados := obterCategoriasCompletas.filterMap (fun info =>
      let contagem := contadorCategoria cam info.1
      if contagem > 0 then
        some
          { faixa := info.2.1
            area_m2 := arredondar2 ((contagem : ℚ) * areaPixel)
            percentual := arredondar2 ((contagem : ℚ) / (validos : ℚ) * 100)
            cor := info.2.2.1
            app := info.2.2.2.1
            minGraus := some info.2.2.2.2.1
            maxGraus := some info.2.2.2.2.2
            contagem := some contagem }
      else none)
    let areaApp := (obterCategoriasCompletas.filterMap (fun info =>
      if info.2.2.2.1 ∧ contadorCategoria cam info.1 > 0 then
        some ((contadorCategoria cam info.1 : ℚ) * areaPixel)
      else none)).sum
    let percentualApp := if areaTotal > 0 then areaApp / areaTotal * 100 else 0
    let mensagens :=
      (match areaLote with
       | some al =>
           if al > 0 then
             let diferencaPercentual := |(areaTotal - al) / al * 100|
             if diferencaPercentual > 20 then
               ["Atenção: Diferença de " ++ formatar2 diferencaPercentual ++
                 "% entre área analisada (" ++ formatar2 areaTotal ++
                 " m²) e área do lote (" ++ formatar2 al ++ " m²)"]
             else ["Área analisada: " ++ formatar2 areaTotal ++ " m² (coerente)"]
           else ["Área analisada: " ++ formatar2 areaTotal ++ " m²"]
       | none => ["Área analisada: " ++ formatar2 areaTotal ++ " m²"]) ++
      ["Raster analisado: " ++ cam.nome,
       "Resolução: " ++ formatar2 cam.xRes ++ " x " ++ formatar2 cam.yRes ++ " m/pixel",
       "Pixels válidos analisados: " ++ toString validos] ++
      (if areaApp > 0 then
        ["APP por inclinação (>45°): " ++ formatar2 areaApp ++ " m² (" ++
          formatar2 percentualApp ++ "%)"]
       else [])
    { faixas := resultados
      areaTotal := arredondar2 areaTotal
      areaAppInclinacao := arredondar2 areaApp
      percentualAppInclinacao := arredondar2 percentualApp
      mensagens := mensagens
      temAppPorInclinacao := areaApp > 0 }

/-- Opaque payload of intersecao_app (environmental-buffer sub-analysis,
an external collaborator of the claims under study). -/
structure ResultadoAPP where
  marcador : ℕ := 0
  deriving Repr, DecidableEq

/-- Opaque payload of intersecao_risco (risk sub-analysis, external to
the claims under study). -/
structure ResultadoRisco where
  marcador : ℕ := 0
  deriving Repr, DecidableEq

/-- From motor_analise_lote.CenarioEdificacao. -/
structure CenarioEdificacao where
  areaLote : ℚ
  areaConstruidaTotal : Option ℚ := none
  areaOcupadaProjecao : Option ℚ := none
  areaPermeavel : Option ℚ := none
  alturaMaxima : Option ℚ := none
  numeroPavimentos : Option Int := none
  deriving Repr, DecidableEq

/-- From motor_analise_lote.ResultadoAnaliseLote. -/
structure ResultadoAnaliseLote where
  zoneamentoIntersecao : ResultadoZoneamento
  zoneamentoAvaliacao : Option ResultadoAvaliacaoZona
  app : ResultadoAPP
  risco : ResultadoRisco
  zoneamentoGeom : Option ResultadoZoneamentoGeom := none
  zonaResolvida : Option ZonaResolvida := none
  testadas : Option ResultadoTestadas := none
  inclinacao : Option ResultadoInclinacao := none
  detectouFrenteNota10 : Bool := false
  detectouFrenteNota37 : Bool := false
  nomeViaNota10 : Option String := none

/-- Everything analisar_lote obtains from the layer registry and from the
external sub-analyses: layer presence, the zoning layer contents, the
slope raster, the raw intersection result, the app/risk payloads, the
boundary-classifier oracles with the parcel rings, whether the testadas
computation raises (and the message then recorded), and the loaded
parameter table. -/
structure AmbienteAnalise where
  loteVazio : Bool
  camadaZoneamento : Option CamadaZoneamento
  camadaLotes : Bool
  camadaInclinacao : Option CamadaRasterIncl
  resZon : ResultadoZoneamento
  resApp : ResultadoAPP
  resRisco : ResultadoRisco
  ambTestadas : AmbienteTestadas
  ringsLote : List (List Ponto)
  falhaTestadas : Bool
  mensagemFalhaTestadas : String
  parametrosPorZona : String → Option ParametrosZona

/-- Message recorded when no reference zone is available for the numeric
evaluation (step 3.3 else-branch of analisar_lote). -/
def mensagemSemZonaReferencia : String :=
  "Não foi possível definir zona de referência para " ++
  "avaliação numérica dos índices urbanísticos."

/-- The boolean local variables bound in the scope of analisar_lote at
the resolver call of line 188: the parameter nota10_confirmada and the
two frontage-detection flags of step 2.3.  The call site passes
`nota10_ativada=nota10_ativada, nota37_ativada=nota37_ativada`, and
neither name is bound (the parameter was renamed nota10_confirmada), so
evaluating the arguments raises NameError, which the surrounding
`except Exception` turns into `zona_resolvida = None`. -/
def escopoBoolAnalisarLote (nota10Confirmada detectou10 detectou37 : Bool) :
    List (String × Bool) :=
  [("nota10_confirmada", nota10Confirmada),
   ("detectou_frente_nota_10", detectou10),
   ("detectou_frente_nota_37", detectou37)]

/-- The fabricated example slope bands of the missing-layer branch of
analisar_lote (lines 313-334): fixed 40/25/15/10/7/3 percent split of the
scenario's parcel area, band 6 flagged as APP. -/
def faixasExemplo (areaLote : ℚ) : List FaixaInclinacao :=
  [{ faixa := "≤ 3°", area_m2 := areaLote * 4 / 10, percentual := 40,
     cor := "#1a9641", app := false },
   { faixa := "3° - 8°", area_m2 := areaLote * 25 / 100, percentual := 25,
     cor := "#fbfdbc", app := false },
   { faixa := "8° - 15°", area_m2 := areaLote * 15 / 100, percentual := 15,
     cor := "#fee4a1", app := false },
   { faixa := "15° - 30°", area_m2 := areaLote * 10 / 100, percentual := 10,
     cor := "#fec981", app := false },
   { faixa := "30° - 45°", area_m2 := areaLote * 7 / 100, percentual := 7,
     cor := "#fdae61", app := false },
   { faixa := "> 45° (APP)", area_m2 := areaLote * 3 / 100, percentual := 3,
     cor := "#d7191c", app := true }]

/-- From motor_analise_lote.analisar_lote: the per-request pipeline.  An
empty parcel raises ValueError (`Except.error`); the zoning decomposition
and testadas run when their layers are present; the resolver call always
degrades to None through the NameError modelled by
escopoBoolAnalisarLote; the numeric evaluation runs only with a truthy
reference zone carrying parameters (its ValueError would propagate); the
slope step analyses the raster when present and otherwise fabricates the
example bands. -/
def analisarLote (env : AmbienteAnalise) (cenario : CenarioEdificacao)
    (nota10Confirmada : Bool) : Except String ResultadoAnaliseLote :=
  if env.loteVazio then Except.error "Geometria do lote inválida ou vazia."
  else
    let resZon0 := env.resZon
    let resGeom : Option ResultadoZoneamentoGeom :=
      match env.camadaZoneamento with
      | some c => some (calcularZoneamentoIncidente env.loteVazio (some c) none)
      | none => none
    let resTestadas : Option ResultadoTestadas :=
      if env.camadaLotes then
        if env.falhaTestadas then none
        else some (calcularTestadasELogradouros env.ambTestadas env.loteVazio env.ringsLote)
      else none
    let msgs1 :=
      if env.camadaLotes ∧ env.falhaTestadas then
        resZon0.mensagens ++ [env.mensagemFalhaTestadas]
      else resZon0.mensagens
    let chaves : List String :=
      match resTestadas with
      | some rt => rt.testadasPorLogradouro.map (·.1)
      | none => []
    let detectou10 :=
      chaves.any (fun k => containsSub (stripPy (toLowerPy k)) "sebastião manoel coelho")
    let nomeVia10 :=
      (chaves.filter (fun k =>
        containsSub (stripPy (toLowerPy k)) "sebastião manoel coelho")).getLast?
    let detectou37 :=
      chaves.any (fun k => containsSub (stripPy (toLowerPy k)) "lúcio joaquim mendes")
    let escopo := escopoBoolAnalisarLote nota10Confirmada detectou10 detectou37
    let zonaResolvida : Option ZonaResolvida :=
      match resGeom with
      | some g =>
          match escopo.lookup "nota10_ativada", escopo.lookup "nota37_ativada" with
          | some v10, some v37 =>
              some (resolver env.parametrosPorZona resZon0 g v10 v37)
          | _, _ => none
      | none => none
    let msgs2 :=
      match zonaResolvida with
      | some zr =>
          msgs1 ++
          (if zr.notasAtivas ≠ [] then
            ["Notas do Anexo III aplicadas: " ++ String.intercalate ", " zr.notasAtivas]
           else []) ++
          (if zr.motivo ≠ "" then [zr.motivo] else []) ++
          (if zr.tipoRegra ≠ "" ∧ zr.tipoRegra ≠ "NAO_DEFINIDA" then
            ["Regime de aplicação definido pela regra: " ++ zr.tipoRegra ++ "."]
           else [])
      | none => msgs1
    let zonaAtualizada :=
      match zonaResolvida with
      | some zr => if opTruthy zr.zonaPrincipal then zr.zonaPrincipal else resZon0.zona
      | none => resZon0.zona
    let passo33 : Except String (Option ResultadoAvaliacaoZona × List String) :=
      match zonaResolvida with
      | some zr =>
          if opTruthy zr.zonaPrincipal then
            match zr.parametros with
            | some params =>
                match avaliarEdificacaoNaZona (zr.zonaPrincipal.getD "") params
                    cenario.areaLote cenario.areaConstruidaTotal
                    cenario.areaOcupadaProjecao cenario.areaPermeavel
                    cenario.alturaMaxima cenario.numeroPavimentos with
                | Except.ok r => Except.ok (some r, msgs2)
                | Except.error e => Except.error e
            | none =>
                Except.ok (none, msgs2 ++
                  ["Parâmetros urbanísticos da zona \x27" ++ zr.zonaPrincipal.getD "" ++
                    "\x27 não encontrados no arquivo de parâmetros."])
          else Except.ok (none, msgs2 ++ [mensagemSemZonaReferencia])
      | none => Except.ok (none, msgs2 ++ [mensagemSemZonaReferencia])
    match passo33 with
    | Except.error e => Except.error e
    | Except.ok par =>
        let resAvZon := par.1
        let msgs3 := par.2
        let passo4 : ResultadoInclinacao × List String :=
          match env.camadaInclinacao with
          | some cam =>
              let ri := analisarInclinacaoTerreno cam env.loteVazio (some cenario.areaLote)
              (ri,
               if ri.temAppPorInclinacao then
                 msgs3 ++ ["Detectada APP por inclinação do terreno (>45°)."]
               else msgs3)
          | none =>
              let areaAppExemplo := cenario.areaLote * 3 / 100
              ({ faixas := faixasExemplo cenario.areaLote
                 areaTotal := cenario.areaLote
                 areaAppInclinacao := arredondar2 areaAppExemplo
                 percentualAppInclinacao := arredondar2 3
                 mensagens :=
                   ["Dados de exemplo - Camada de inclinação não encontrada no projeto"]
                 temAppPorInclinacao := areaAppExemplo > 0 }, msgs3)
    Except.ok
      { zoneamentoIntersecao := { resZon0 with mensagens := passo4.2, zona := zonaAtualizada }
        zoneamentoAvaliacao := resAvZon
        app := env.resApp
        risco := env.resRisco
        zoneamentoGeom := resGeom
        zonaResolvida := zonaResolvida
        testadas := resTestadas
        inclinacao := some passo4.1
        detectouFrenteNota10 := detectou10
        detectouFrenteNota37 := detectou37
        nomeViaNota10 := nomeVia10 }

theorem zonaMaiorAreaAux_mem (f : String → ℚ) (l : List String) :
    ∀ (melhor : Option String) (a : ℚ) (z : String),
      zonaMaiorAreaAux f melhor a l = some z → melhor = some z ∨ z ∈ l := by
  induction l with
  | nil => intro melhor a z h; simp [zonaMaiorAreaAux] at h; exact Or.inl (by simp [h])
  | cons c resto ih =>
      intro melhor a z h
      simp only [zonaMaiorAreaAux] at h
      split at h
      · rcases ih _ _ _ h with h1 | h2
        · right; simp at h1; simp [h1]
        · right; exact List.mem_cons_of_mem _ h2
      · rcases ih _ _ _ h with h1 | h2
        · exact Or.inl h1
        · right; exact List.mem_cons_of_mem _ h2

theorem zonaMaiorArea_mem (f : String → ℚ) (l : List String) (z : String)
    (h : zonaMaiorArea f l = some z) : z ∈ l := by
  unfold zonaMaiorArea at h
  split at h
  · simp at h
  · rcases zonaMaiorAreaAux_mem f l none (-1) z h with h1 | h2
    · simp at h1
    · exact h2

theorem zonaMaiorAreaAux_sorted_spec (f : String → ℚ) :
    ∀ (l : List String) (m : String),
      List.Sorted (· ≤ ·) (m :: l) →
      ∃ z, zonaMaiorAreaAux f (some m) (f m) l = some z ∧
        z ∈ m :: l ∧
        (∀ w ∈ m :: l, f w ≤ f z) ∧
        (∀ w ∈ m :: l, f w = f z → z ≤ w) := by
  intro l
  induction l with
  | nil =>
      intro m _
      exact ⟨m, rfl, by simp, by simp, by simp⟩
  | cons c resto ih =>
      intro m hs
      have hmc : m ≤ c := (List.sorted_cons.mp hs).1 c (by simp)
      have hsc : List.Sorted (· ≤ ·) (c :: resto) := (List.sorted_cons.mp hs).2
      simp only [zonaMaiorAreaAux]
      by_cases hgt : f c > f m
      · rw [if_pos hgt]
        obtain ⟨z, hz, hzmem, hzmax, hzmin⟩ := ih c hsc
        refine ⟨z, hz, List.mem_cons_of_mem _ hzmem, ?_, ?_⟩
        · intro w hw
          rcases List.mem_cons.mp hw with rfl | hw2
          · exact le_trans (le_of_lt hgt) (hzmax c (by simp))
          · exact hzmax w hw2
        · intro w hw hfw
          rcases List.mem_cons.mp hw with rfl | hw2
          · exfalso
            have : f w < f z := lt_of_lt_of_le hgt (hzmax c (by simp))
            exact absurd hfw (ne_of_lt this)
          · exact hzmin w hw2 hfw
      · rw [if_neg hgt]
        push_neg at hgt
        have hsm : List.Sorted (· ≤ ·) (m :: resto) := by
          rw [List.sorted_cons] at hs ⊢
          exact ⟨fun b hb => hs.1 b (by simp [hb]), (List.sorted_cons.mp hs.2).2⟩
        obtain ⟨z, hz, hzmem, hzmax, hzmin⟩ := ih m hsm
        refine ⟨z, hz, ?_, ?_, ?_⟩
        · rcases List.mem_cons.mp hzmem with rfl | hz2
          · simp
          · simp [List.mem_cons_of_mem _ (List.mem_cons_of_mem _ hz2)]
        · intro w hw
          rcases List.mem_cons.mp hw with rfl | hw2
          · exact hzmax w (by simp)
          · rcases List.mem_cons.mp hw2 with rfl | hw3
            · exact le_trans hgt (hzmax m (by simp))
            · exact hzmax w (by simp [hw3])
        · intro w hw hfw
          rcases List.mem_cons.mp hw with rfl | hw2
          · exact hzmin w (by simp) hfw
          · rcases List.mem_cons.mp hw2 with rfl | hw3
            · have hfm : f m ≤ f z := hzmax m (by simp)
              have : f z = f m := le_antisymm (hfw ▸ hgt) hfm
              exact le_trans (hzmin m (by simp) this.symm) hmc
            · exact hzmin w (by simp [hw3]) hfw

theorem zonaMaiorArea_sorted_spec (f : String → ℚ) (l : List String)
    (hne : l ≠ []) (hs : List.Sorted (· ≤ ·) l) (h0 : ∀ z ∈ l, 0 ≤ f z) :
    ∃ z, zonaMaiorArea f l = some z ∧ z ∈ l ∧
      (∀ w ∈ l, f w ≤ f z) ∧ (∀ w ∈ l, f w = f z → z ≤ w) := by
  match l, hne with
  | m :: resto, _ =>
      unfold zonaMaiorArea
      rw [if_neg (by simp)]
      have hm0 : (0 : ℚ) ≤ f m := h0 m (by simp)
      simp only [zonaMaiorAreaAux]
      rw [if_pos (by linarith)]
      exact zonaMaiorAreaAux_sorted_spec f resto m hs

theorem ltLista_iff (cs ds : List Char) : ltLista cs ds = true ↔ cs < ds := by
  induction cs generalizing ds with
  | nil =>
      cases ds with
      | nil => exact iff_of_false (by simp [ltLista]) (fun h => by cases h)
      | cons d ds2 => exact iff_of_true rfl List.Lex.nil
  | cons c cs2 ih =>
      cases ds with
      | nil => exact iff_of_false (by simp [ltLista]) (fun h => by cases h)
      | cons d ds2 =>
          simp only [ltLista]
          by_cases hcd : c < d
          · rw [if_pos hcd]
            exact iff_of_true rfl (List.Lex.rel hcd)
          · rw [if_neg hcd]
            by_cases hdc : d < c
            · rw [if_pos hdc]
              refine iff_of_false (by simp) (fun h => ?_)
              cases h with
              | cons h1 => exact absurd hdc (lt_irrefl _)
              | rel h1 => exact absurd h1 hcd
            · rw [if_neg hdc]
              have heq : c = d := le_antisymm (not_lt.mp hdc) (not_lt.mp hcd)
              subst heq
              rw [ih ds2]
              constructor
              · intro h; exact List.Lex.cons h
              · intro h
                cases h with
                | cons h1 => exact h1
                | rel h1 => exact absurd h1 (lt_irrefl _)

theorem leStr_iff (s t : String) : leStr s t = true ↔ s ≤ t := by
  unfold leStr
  rw [Bool.not_eq_true', ← Bool.not_eq_true, ltLista_iff]
  rw [String.le_iff_toList_le]
  exact not_lt

theorem sortedDedup_sorted (l : List String) :
    List.Sorted (· ≤ ·) (sortedDedup l) := by
  have htot : IsTotal String (fun a b => leStr a b = true) := by
    constructor
    intro a b
    rcases le_total a b with h | h
    · exact Or.inl ((leStr_iff a b).mpr h)
    · exact Or.inr ((leStr_iff b a).mpr h)
  have htrans : IsTrans String (fun a b => leStr a b = true) := by
    constructor
    intro a b c h1 h2
    exact (leStr_iff a c).mpr (le_trans ((leStr_iff a b).mp h1) ((leStr_iff b c).mp h2))
  have hs : List.Sorted (fun a b => leStr a b = true)
      (l.insertionSort (fun a b => leStr a b = true)) :=
    @List.sorted_insertionSort String (fun a b => leStr a b = true) _ htot htrans l
  have hs2 : List.Sorted (fun a b => leStr a b = true) (sortedDedup l) :=
    hs.sublist (List.dedup_sublist _)
  exact hs2.imp (fun h => (leStr_iff _ _).mp h)

theorem mem_sortedDedup (l : List String) (z : String) :
    z ∈ sortedDedup l ↔ z ∈ l := by
  unfold sortedDedup
  rw [List.mem_dedup]
  exact List.mem_insertionSort (fun a b => leStr a b = true)

theorem sortedDedup_nodup (l : List String) : (sortedDedup l).Nodup :=
  List.nodup_dedup _

theorem sortedDedup_filter_sorted (l : List String) (p : String → Bool) :
    List.Sorted (· ≤ ·) ((sortedDedup l).filter p) :=
  (sortedDedup_sorted l).sublist (List.filter_sublist _)


theorem maxPorArea_mem (l : List ZonaAplicada) (z : ZonaAplicada)
    (h : maxPorArea l = some z) : z ∈ l := by
  match l with
  | [] => simp [maxPorArea] at h
  | c :: resto =>
      simp only [maxPorArea, Option.some.injEq] at h
      have aux : ∀ (l2 : List ZonaAplicada) (ini : ZonaAplicada),
          (l2.foldl (fun melhor atual =>
            if atual.area_m2 > melhor.area_m2 then atual else melhor) ini) = ini ∨
          (l2.foldl (fun melhor atual =>
            if atual.area_m2 > melhor.area_m2 then atual else melhor) ini) ∈ l2 := by
        intro l2
        induction l2 with
        | nil => intro ini; left; rfl
        | cons d resto2 ih =>
            intro ini
            simp only [List.foldl_cons]
            rcases ih (if d.area_m2 > ini.area_m2 then d else ini) with h1 | h2
            · rw [h1]
              by_cases hd : d.area_m2 > ini.area_m2
              · right; simp [hd]
              · left; simp [hd]
            · right; exact List.mem_cons_of_mem _ h2
      rcases aux resto c with h1 | h2
      · rw [h1] at h; rw [← h]; simp
      · rw [← h]; exact List.mem_cons_of_mem _ h2

theorem atualizaRefPorMaior_mem (anterior : Option String) (grupo : List ZonaAplicada)
    (z : String) (h : atualizaRefPorMaior anterior grupo = some z) :
    anterior = some z ∨ z ∈ grupo.map (·.codigo) := by
  unfold atualizaRefPorMaior at h
  split at h
  · right
    rcases Option.map_eq_some'.mp h with ⟨za, hza, hcod⟩
    exact hcod ▸ List.mem_map_of_mem _ (maxPorArea_mem _ _ hza)
  · exact Or.inl h

theorem refFallbackPorMaior_mem (anterior : Option String)
    (infoZonas candidatos : List ZonaAplicada) (z : String)
    (h : refFallbackPorMaior anterior infoZonas candidatos = some z) :
    anterior = some z ∨ z ∈ candidatos.map (·.codigo) := by
  unfold refFallbackPorMaior at h
  split at h
  · right
    rcases Option.map_eq_some'.mp h with ⟨za, hza, hcod⟩
    exact hcod ▸ List.mem_map_of_mem _ (maxPorArea_mem _ _ hza)
  · exact Or.inl h

theorem map_codigo_de_map (l : List String) (g : String → ZonaAplicada)
    (hg : ∀ z, (g z).codigo = z) : (l.map g).map (·.codigo) = l := by
  rw [List.map_map]
  have : ((fun za => za.codigo) ∘ g) = id := funext fun z => hg z
  rw [this, List.map_id]

theorem mem_map_codigo_filter (I : List ZonaAplicada) (p : ZonaAplicada → Bool) (z : String)
    (h : z ∈ (I.filter p).map (·.codigo)) : z ∈ I.map (·.codigo) := by
  rcases List.mem_map.mp h with ⟨za, hmem, hcod⟩
  exact hcod ▸ List.mem_map_of_mem _ (List.mem_of_mem_filter hmem)

theorem mem_map_codigo_candidatos (I : List ZonaAplicada) (p : ZonaAplicada → Bool)
    (z : String)
    (h : z ∈ ((if I.filter p = [] then I else I.filter p).map (·.codigo))) :
    z ∈ I.map (·.codigo) := by
  by_cases hc : I.filter p = []
  · rw [if_pos hc] at h; exact h
  · rw [if_neg hc] at h; exact mem_map_codigo_filter _ _ _ h

theorem resolvedorRefEmInfo (zonasIncidentes : List String) (zonasAreas : String → ℚ)
    (resZon : ResultadoZoneamento) (n10 n37 : Bool) (z : String)
    (h : (resolverSobreposicoes zonasIncidentes zonasAreas resZon n10 n37).zonaReferencia =
      some z) :
    z ∈ (resolverSobreposicoes zonasIncidentes zonasAreas resZon n10 n37).infoZonas.map
      (·.codigo) := by
  by_cases hz : zonasIncidentes.filter (fun w => decide (w ≠ "")) = []
  · simp only [resolverSobreposicoes] at h
    rw [if_pos hz] at h
    simp at h
  · simp only [resolverSobreposicoes] at h ⊢
    rw [if_neg hz] at h ⊢
    dsimp only at h ⊢
    rcases refFallbackPorMaior_mem _ _ _ _ h with h2 | hC
    swap
    · exact mem_map_codigo_candidatos _ _ _ hC
    rcases atualizaRefPorMaior_mem _ _ _ h2 with h3 | hE
    swap
    · exact mem_map_codigo_filter _ _ _ hE
    rcases atualizaRefPorMaior_mem _ _ _ h3 with h4 | hS
    swap
    · exact mem_map_codigo_filter _ _ _ hS
    rw [map_codigo_de_map _ _ (fun w => rfl)]
    rw [mem_sortedDedup]
    by_cases h10 : n10
    · rw [if_pos h10] at h4
      simp only [Option.some.injEq] at h4
      subst h4
      simp [h10]
    · rw [if_neg h10] at h4
      by_cases h37 : n37
      · rw [if_pos h37] at h4
        simp only [Option.some.injEq] at h4
        subst h4
        simp [h37]
      · rw [if_neg h37] at h4
        simp at h4

theorem regraRefEmConsideradas (zonas : List String) (areasPorZona : String → ℚ)
    (testadas : List String) (n10 n37 : Bool) (z : String) :
    (aplicarRegraSobreposicao zonas areasPorZona testadas n10 n37).zonaPrincipal = some z →
    z ∈ (aplicarRegraSobreposicao zonas areasPorZona testadas n10 n37).zonasConsideradas := by
  intro h
  set r := aplicarRegraSobreposicao zonas areasPorZona testadas n10 n37 with hr
  rw [aplicarRegraSobreposicao] at hr
  by_cases c1 : sortedDedup zonas = []
  · rw [if_pos c1] at hr
    rw [hr] at h
    simp at h
  rw [if_neg c1] at hr
  by_cases c2 : n10 = true
  · rw [if_pos c2] at hr
    rw [hr] at h ⊢
    dsimp only at h ⊢
    obtain rfl : z = "ZEOT2" := by simpa using h.symm
    rw [mem_sortedDedup]
    simp
  rw [if_neg c2] at hr
  by_cases c3 : deduzAcessoLucio n37 testadas = true
  · rw [if_pos c3] at hr
    rw [hr] at h ⊢
    dsimp only at h ⊢
    obtain rfl : z = "MUQ3" := by simpa using h.symm
    rw [mem_sortedDedup]
    simp
  rw [if_neg c3] at hr
  set zu := zonasComDeducao (sortedDedup zonas) testadas with hzu
  by_cases c4 : zu.filter (fun w => decide (classificarZona w = "ESPECIAL")) ≠ []
  · rw [if_pos c4] at hr
    rw [hr] at h ⊢
    dsimp only at h ⊢
    exact List.mem_of_mem_filter (zonaMaiorArea_mem _ _ _ h)
  rw [if_neg c4] at hr
  by_cases c5 : zu.filter (fun w => decide (classificarZona w = "EIXO")) ≠ [] ∧
      (zu.filter (fun w => decide (classificarZona w = "MACRO"))).filter
        (fun w => decide (w ∉ MACROZONAS_COEXISTENTES)) ≠ []
  · rw [if_pos c5] at hr
    rw [hr] at h ⊢
    dsimp only at h ⊢
    exact List.mem_of_mem_filter (zonaMaiorArea_mem _ _ _ h)
  rw [if_neg c5] at hr
  by_cases c6 : zu.filter (fun w => decide (classificarZona w = "EIXO")) ≠ [] ∧
      zu.filter (fun w => decide (classificarZona w = "SEMIEIXO")) ≠ []
  · rw [if_pos c6] at hr
    rw [hr] at h ⊢
    dsimp only at h ⊢
    exact List.mem_of_mem_filter (zonaMaiorArea_mem _ _ _ h)
  rw [if_neg c6] at hr
  by_cases c7 : (zu.filter (fun w => decide (classificarZona w = "MACRO"))).filter
      (fun w => decide (w ∈ MACROZONAS_COEXISTENTES)) ≠ []
  · rw [if_pos c7] at hr
    rw [hr] at h ⊢
    dsimp only at h ⊢
    by_cases c7b : zu.filter (fun w => decide (classificarZona w = "EIXO")) ≠ []
    · rw [if_pos c7b] at h
      exact List.mem_of_mem_filter (zonaMaiorArea_mem _ _ _ h)
    · rw [if_neg c7b] at h
      simp at h
  rw [if_neg c7] at hr
  by_cases c8 : zu.filter (fun w => decide (classificarZona w = "EIXO")) ≠ [] ∧
      zu.filter (fun w => decide (classificarZona w = "MACRO")) = []
  · rw [if_pos c8] at hr
    rw [hr] at h ⊢
    dsimp only at h ⊢
    exact List.mem_of_mem_filter (zonaMaiorArea_mem _ _ _ h)
  rw [if_neg c8] at hr
  by_cases c9 : zu.filter (fun w => decide (classificarZona w = "MACRO")) ≠ [] ∧
      zu.filter (fun w => decide (classificarZona w = "EIXO")) = []
  · rw [if_pos c9] at hr
    by_cases c9b : (zu.filter (fun w => decide (classificarZona w = "MACRO"))).length = 1
    · rw [if_pos c9b] at hr
      rw [hr] at h ⊢
      dsimp only at h ⊢
      exact List.mem_of_mem_filter (List.mem_of_mem_head? h)
    · rw [if_neg c9b] at hr
      rw [hr] at h ⊢
      dsimp only at h ⊢
      exact List.mem_of_mem_filter (zonaMaiorArea_mem _ _ _ h)
  rw [if_neg c9] at hr
  rw [hr] at h
  simp at h

theorem map_codigo_anexa_parametros (l : List ZonaAplicada)
    (parametrosPorZona : String → Option ParametrosZona) :
    ((l.map (fun za =>
      match parametrosPorZona za.codigo with
      | some p => { za with parametros := some p }
      | none => za)).map (·.codigo)) = l.map (·.codigo) := by
  rw [List.map_map]
  refine List.map_congr_left fun za _ => ?_
  simp only [Function.comp_apply]
  cases h : parametrosPorZona za.codigo <;> simp [h]

/-- C5: for every input, when the resolver output carries a reference
zone, that code is among the codes of the applied-zone list — stated for
the _resolver_sobreposicoes core, for the public resolver method (whose
applied zones are the core zones with parameters attached), and for the
aplicar_regra_sobreposicao rulebook (reference zone in
zonas_consideradas). -/
theorem zona_referencia_pertence_zonas_aplicadas :
    (∀ (zonasIncidentes : List String) (zonasAreas : String → ℚ)
        (resZon : ResultadoZoneamento) (n10 n37 : Bool) (z : String),
      (resolverSobreposicoes zonasIncidentes zonasAreas resZon n10 n37).zonaReferencia =
        some z →
      z ∈ (resolverSobreposicoes zonasIncidentes zonasAreas resZon n10 n37).infoZonas.map
        (·.codigo)) ∧
    (∀ (parametrosPorZona : String → Option ParametrosZona)
        (resZon : ResultadoZoneamento) (resGeom : ResultadoZoneamentoGeom)
        (n10 n37 : Bool) (z : String),
      (resolver parametrosPorZona resZon resGeom n10 n37).zonaPrincipal = some z →
      z ∈ (resolver parametrosPorZona resZon resGeom n10 n37).zonasAplicadas.map
        (·.codigo)) ∧
    (∀ (zonas : List String) (areasPorZona : String → ℚ) (testadas : List String)
        (n10 n37 : Bool) (z : String),
      (aplicarRegraSobreposicao zonas areasPorZona testadas n10 n37).zonaPrincipal =
        some z →
      z ∈ (aplicarRegraSobreposicao zonas areasPorZona testadas n10 n37).zonasConsideradas) := by
  refine ⟨resolvedorRefEmInfo, ?_, regraRefEmConsideradas⟩
  intro parametrosPorZona resZon resGeom n10 n37 z h
  simp only [resolver] at h ⊢
  rw [map_codigo_anexa_parametros]
  exact resolvedorRefEmInfo _ _ _ _ _ _ h

/-- Witness for C5: a parcel fully inside MUQ2 resolves to reference zone
MUQ2, which indeed appears among the applied zones. -/
theorem zona_referencia_pertence_zonas_aplicadas_witness :
    "MUQ2" ∈ (resolver (fun _ => none) {} ⟨["MUQ2"], [("MUQ2", 500)], 500,
      [("MUQ2", 100)]⟩ false false).zonasAplicadas.map (·.codigo) :=
  zona_referencia_pertence_zonas_aplicadas.2.1 (fun _ => none) {}
    ⟨["MUQ2"], [("MUQ2", 500)], 500, [("MUQ2", 100)]⟩ false false "MUQ2" (by decide)

theorem zonaPorLogradouro_cases (v z : String) (h : zonaPorLogradouro v = some z) :
    z = "EU1" ∨ z = "SEMIEIXO" := by
  simp only [zonaPorLogradouro] at h
  split at h
  · exact absurd h (by simp)
  · split at h
    next p hp =>
      have hm := List.mem_of_find?_eq_some hp
      simp only [MAPA_LOGRADOURO_EIXO, List.mem_singleton] at hm
      simp only [Option.some.injEq] at h
      left
      rw [← h, hm]
    next hp =>
      rcases Option.map_eq_some'.mp h with ⟨p, hp2, h2⟩
      have hm := List.mem_of_find?_eq_some hp2
      simp only [MAPA_LOGRADOURO_SEMIEIXO, List.mem_cons, List.mem_singleton,
        List.not_mem_nil, or_false] at hm
      right
      rcases hm with hm | hm <;> rw [← h2, hm]

theorem zonasComDeducao_sorted (zonas testadas : List String) :
    List.Sorted (· ≤ ·) (zonasComDeducao (sortedDedup zonas) testadas) := by
  simp only [zonasComDeducao]
  split
  · exact sortedDedup_sorted zonas
  · exact sortedDedup_sorted _

theorem deduzida_nao_especial (testadas : List String) (z : String)
    (h : z ∈ testadas.filterMap zonaPorLogradouro) :
    classificarZona z ≠ "ESPECIAL" := by
  rcases List.mem_filterMap.mp h with ⟨v, _, hv⟩
  rcases zonaPorLogradouro_cases v z hv with rfl | rfl <;> decide

theorem especiais_vazio_de_vazio (testadas : List String) (zonas : List String)
    (hz : sortedDedup zonas = [])
    (hne : (zonasComDeducao (sortedDedup zonas) testadas).filter
      (fun w => decide (classificarZona w = "ESPECIAL")) ≠ []) : False := by
  apply hne
  rw [List.filter_eq_nil_iff]
  intro a ha
  rw [hz] at ha
  simp only [zonasComDeducao] at ha
  split at ha
  · simp at ha
  · rw [mem_sortedDedup] at ha
    simp only [List.nil_append] at ha
    simp only [decide_eq_true_eq]
    exact deduzida_nao_especial testadas a ha

/-- C3 (amended): with no notes, no inferable frontage, only macro-category
zones none of which is in the mandatory-coexistence set: a single macro
zone is selected directly (MACRO_UNICA); several macro zones yield the
largest-area macro as reference (MACRO_MULTIPLA) with the case-by-case
advisory rationale. -/
theorem regraMacroUnicaEMultipla (zonas : List String) (areasPorZona : String → ℚ)
    (testadas : List String)
    (hLucio : deduzAcessoLucio false testadas = false)
    (hDeduz : ∀ v ∈ testadas, zonaPorLogradouro v = none)
    (hAll : ∀ z ∈ sortedDedup zonas, classificarZona z = "MACRO")
    (hCoex : ∀ z ∈ sortedDedup zonas, z ∉ MACROZONAS_COEXISTENTES) :
    ((sortedDedup zonas).length = 1 →
      (aplicarRegraSobreposicao zonas areasPorZona testadas false false).tipoRegra =
          "MACRO_UNICA" ∧
      (aplicarRegraSobreposicao zonas areasPorZona testadas false false).zonaPrincipal =
          (sortedDedup zonas).head?) ∧
    (2 ≤ (sortedDedup zonas).length →
      (aplicarRegraSobreposicao zonas areasPorZona testadas false false).tipoRegra =
          "MACRO_MULTIPLA" ∧
      (aplicarRegraSobreposicao zonas areasPorZona testadas false false).zonaPrincipal =
          zonaMaiorArea areasPorZona (sortedDedup zonas) ∧
      (aplicarRegraSobreposicao zonas areasPorZona testadas false false).motivo =
          motivoMacroMultipla (zonaMaiorArea areasPorZona (sortedDedup zonas))) := by
  have hzcd : zonasComDeducao (sortedDedup zonas) testadas = sortedDedup zonas := by
    simp only [zonasComDeducao]
    rw [List.filterMap_eq_nil_iff.mpr hDeduz]
    simp
  have hEsp : (sortedDedup zonas).filter
      (fun w => decide (classificarZona w = "ESPECIAL")) = [] := by
    rw [List.filter_eq_nil_iff]
    intro a ha
    simp [hAll a ha]
  have hEixo : (sortedDedup zonas).filter
      (fun w => decide (classificarZona w = "EIXO")) = [] := by
    rw [List.filter_eq_nil_iff]
    intro a ha
    simp [hAll a ha]
  have hSemi : (sortedDedup zonas).filter
      (fun w => decide (classificarZona w = "SEMIEIXO")) = [] := by
    rw [List.filter_eq_nil_iff]
    intro a ha
    simp [hAll a ha]
  have hMacroEq : (sortedDedup zonas).filter
      (fun w => decide (classificarZona w = "MACRO")) = sortedDedup zonas := by
    rw [List.filter_eq_self]
    intro a ha
    simp [hAll a ha]
  have hFixas : (sortedDedup zonas).filter
      (fun w => decide (w ∈ MACROZONAS_COEXISTENTES)) = [] := by
    rw [List.filter_eq_nil_iff]
    intro a ha
    simp [hCoex a ha]
  set r := aplicarRegraSobreposicao zonas areasPorZona testadas false false with hr
  rw [aplicarRegraSobreposicao] at hr
  constructor
  · intro hlen1
    have h0 : ¬ sortedDedup zonas = [] := by
      intro hz; rw [hz] at hlen1; simp at hlen1
    rw [if_neg h0] at hr
    rw [if_neg (by simp)] at hr
    rw [if_neg (by simp [hLucio])] at hr
    rw [hzcd] at hr
    dsimp only at hr
    rw [hEsp, hEixo, hSemi, hMacroEq, hFixas] at hr
    rw [if_neg (by simp)] at hr
    rw [if_neg (by simp)] at hr
    rw [if_neg (by simp)] at hr
    rw [if_neg (by simp)] at hr
    rw [if_neg (by simp)] at hr
    rw [if_pos ⟨h0, rfl⟩] at hr
    rw [if_pos hlen1] at hr
    rw [hr]
    exact ⟨rfl, rfl⟩
  · intro hlen2
    have h0 : ¬ sortedDedup zonas = [] := by
      intro hz; rw [hz] at hlen2; simp at hlen2
    rw [if_neg h0] at hr
    rw [if_neg (by simp)] at hr
    rw [if_neg (by simp [hLucio])] at hr
    rw [hzcd] at hr
    dsimp only at hr
    rw [hEsp, hEixo, hSemi, hMacroEq, hFixas] at hr
    rw [if_neg (by simp)] at hr
    rw [if_neg (by simp)] at hr
    rw [if_neg (by simp)] at hr
    rw [if_neg (by simp)] at hr
    rw [if_neg (by simp)] at hr
    rw [if_pos ⟨h0, rfl⟩] at hr
    rw [if_neg (by omega)] at hr
    rw [hr]
    exact ⟨rfl, rfl, rfl⟩

/-- C4 (amended): with no note flags and no Nota 37 frontage inference,
whenever Special zones are incident the rule selects, among the Special
zones of maximal incident area, the lexicographically smallest code —
in particular ties of equal-area Special zones break to the smaller
code. -/
theorem regraEspecialEmpateLexicografico (zonas : List String)
    (areasPorZona : String → ℚ) (testadas : List String)
    (hLucio : deduzAcessoLucio false testadas = false)
    (hNonneg : ∀ z, 0 ≤ areasPorZona z)
    (hEsp : (zonasComDeducao (sortedDedup zonas) testadas).filter
      (fun w => decide (classificarZona w = "ESPECIAL")) ≠ []) :
    ∃ zRef,
      (aplicarRegraSobreposicao zonas areasPorZona testadas false false).zonaPrincipal =
        some zRef ∧
      (aplicarRegraSobreposicao zonas areasPorZona testadas false false).tipoRegra =
        "ZONA_ESPECIAL_PREDOMINANTE" ∧
      zRef ∈ (zonasComDeducao (sortedDedup zonas) testadas).filter
        (fun w => decide (classificarZona w = "ESPECIAL")) ∧
      (∀ w ∈ (zonasComDeducao (sortedDedup zonas) testadas).filter
        (fun w => decide (classificarZona w = "ESPECIAL")),
        areasPorZona w ≤ areasPorZona zRef) ∧
      (∀ w ∈ (zonasComDeducao (sortedDedup zonas) testadas).filter
        (fun w => decide (classificarZona w = "ESPECIAL")),
        areasPorZona w = areasPorZona zRef → zRef ≤ w) := by
  have h0 : ¬ sortedDedup zonas = [] := fun hz => especiais_vazio_de_vazio testadas zonas hz hEsp
  have hsortedEsp : List.Sorted (· ≤ ·)
      ((zonasComDeducao (sortedDedup zonas) testadas).filter
        (fun w => decide (classificarZona w = "ESPECIAL"))) :=
    (zonasComDeducao_sorted zonas testadas).sublist (List.filter_sublist _)
  obtain ⟨zRef, hEq, hmem, hmax, hmin⟩ :=
    zonaMaiorArea_sorted_spec areasPorZona
      ((zonasComDeducao (sortedDedup zonas) testadas).filter
        (fun w => decide (classificarZona w = "ESPECIAL")))
      hEsp hsortedEsp (fun z _ => hNonneg z)
  set r := aplicarRegraSobreposicao zonas areasPorZona testadas false false with hr
  rw [aplicarRegraSobreposicao] at hr
  rw [if_neg h0] at hr
  rw [if_neg (by simp)] at hr
  rw [if_neg (by simp [hLucio])] at hr
  dsimp only at hr
  rw [if_pos hEsp] at hr
  refine ⟨zRef, ?_, ?_, hmem, hmax, hmin⟩
  · rw [hr]
    exact hEq
  · rw [hr]

/-- Incident areas of the C3 counterexample: MUQ1 with 100 m², MUQ2 with
200 m². -/
def areasContraMacro : String → ℚ :=
  fun z => if z = "MUQ1" then 100 else if z = "MUQ2" then 200 else 0

/-- C3 counterexample: two incident macro zones (no notes, no frontage),
where the claim requires no reference zone and only an advisory; the code
selects the largest-area macro MUQ2 as reference zone. -/
theorem regraMacroMultipla_contra :
    (aplicarRegraSobreposicao ["MUQ1", "MUQ2"] areasContraMacro [] false
        false).tipoRegra = "MACRO_MULTIPLA" ∧
    (aplicarRegraSobreposicao ["MUQ1", "MUQ2"] areasContraMacro [] false
        false).zonaPrincipal = some "MUQ2" := by
  constructor <;> decide

/-- Witness for C3 (amended), single-macro side: a parcel fully inside
MUQ2 yields MACRO_UNICA with MUQ2 selected, and the two-macro side is
reachable at MUQ1/MUQ2. -/
theorem regraMacroUnicaEMultipla_witness :
    ((sortedDedup ["MUQ2"]).length = 1 →
      (aplicarRegraSobreposicao ["MUQ2"] areasContraMacro [] false false).tipoRegra =
          "MACRO_UNICA" ∧
      (aplicarRegraSobreposicao ["MUQ2"] areasContraMacro [] false false).zonaPrincipal =
          (sortedDedup ["MUQ2"]).head?) ∧
    (2 ≤ (sortedDedup ["MUQ2"]).length →
      (aplicarRegraSobreposicao ["MUQ2"] areasContraMacro [] false false).tipoRegra =
          "MACRO_MULTIPLA" ∧
      (aplicarRegraSobreposicao ["MUQ2"] areasContraMacro [] false false).zonaPrincipal =
          zonaMaiorArea areasContraMacro (sortedDedup ["MUQ2"]) ∧
      (aplicarRegraSobreposicao ["MUQ2"] areasContraMacro [] false false).motivo =
          motivoMacroMultipla (zonaMaiorArea areasContraMacro (sortedDedup ["MUQ2"]))) :=
  regraMacroUnicaEMultipla ["MUQ2"] areasContraMacro [] (by decide)
    (by decide) (by decide) (by decide)

/-- Incident areas of the C4 counterexample: ZE1 and ZE2 tied at 300 m²,
ZE3 with 400 m². -/
def areasContraEspecial : String → ℚ :=
  fun z => if z = "ZE1" then 300 else if z = "ZE2" then 300 else if z = "ZE3" then 400 else 0

/-- C4 counterexample: the incidence set holds the equal-area Special
pair ZE1/ZE2 (claim: reference = "ZE1", the lexicographically smaller of
the pair) together with the larger Special zone ZE3; the code selects
ZE3. -/
theorem regraEspecialEmpate_contra :
    areasContraEspecial "ZE1" = 300 ∧ areasContraEspecial "ZE2" = 300 ∧
    (aplicarRegraSobreposicao ["ZE1", "ZE2", "ZE3"] areasContraEspecial [] false
        false).zonaPrincipal = some "ZE3" ∧ ("ZE3" : String) ≠ "ZE1" := by
  refine ⟨by decide, by decide, by decide, by decide⟩

/-- Witness for C4 (amended): the ZE1/ZE2 tie at 300 m² resolves inside
the Special group with the lexicographic tie-break. -/
theorem regraEspecialEmpateLexicografico_witness :
    ∃ zRef,
      (aplicarRegraSobreposicao ["ZE1", "ZE2"] (fun _ => 300) [] false false).zonaPrincipal =
        some zRef ∧
      (aplicarRegraSobreposicao ["ZE1", "ZE2"] (fun _ => 300) [] false false).tipoRegra =
        "ZONA_ESPECIAL_PREDOMINANTE" ∧
      zRef ∈ (zonasComDeducao (sortedDedup ["ZE1", "ZE2"]) []).filter
        (fun w => decide (classificarZona w = "ESPECIAL")) ∧
      (∀ w ∈ (zonasComDeducao (sortedDedup ["ZE1", "ZE2"]) []).filter
        (fun w => decide (classificarZona w = "ESPECIAL")),
        (fun _ => (300 : ℚ)) w ≤ (fun _ => (300 : ℚ)) zRef) ∧
      (∀ w ∈ (zonasComDeducao (sortedDedup ["ZE1", "ZE2"]) []).filter
        (fun w => decide (classificarZona w = "ESPECIAL")),
        (fun _ => (300 : ℚ)) w = (fun _ => (300 : ℚ)) zRef → zRef ≤ w) :=
  regraEspecialEmpateLexicografico ["ZE1", "ZE2"] (fun _ => 300) [] (by decide)
    (fun _ => by norm_num) (by decide)

theorem blocoCA_kind (zona : String) (par : ParametrosZona) (a : ℚ) (ac : Option ℚ) :
    ∀ p ∈ (blocoAvaliacaoCA zona par a ac).1, kindPendencia p = 0 := by
  intro p hp
  rcases ac with _ | ac
  · simp [blocoAvaliacaoCA] at hp
  · simp only [blocoAvaliacaoCA, List.mem_append] at hp
    rcases hp with hp | hp
    · rcases hmin : par.CA_min with _ | camin <;> rw [hmin] at hp <;> dsimp only at hp
      · simp at hp
      · split at hp
        · rw [List.mem_singleton] at hp
          subst hp; rfl
        · simp at hp
    · rcases hmax : par.CA_max with _ | camax <;> rw [hmax] at hp <;> dsimp only at hp
      · simp at hp
      · split at hp
        · rw [List.mem_singleton] at hp
          subst hp; rfl
        · simp at hp

theorem blocoTocup_kind (zona : String) (par : ParametrosZona) (a : ℚ) (ao : Option ℚ) :
    ∀ p ∈ (blocoAvaliacaoTocup zona par a ao).1, kindPendencia p = 1 := by
  intro p hp
  rcases ao with _ | ao
  · simp [blocoAvaliacaoTocup] at hp
  · simp only [blocoAvaliacaoTocup] at hp
    rcases hv : par.Tocup with _ | tocup <;> rw [hv] at hp <;> dsimp only at hp
    · simp at hp
    · split at hp
      · rw [List.mem_singleton] at hp
        subst hp; rfl
      · simp at hp

theorem blocoTperm_kind (zona : String) (par : ParametrosZona) (a : ℚ) (ap : Option ℚ) :
    ∀ p ∈ (blocoAvaliacaoTperm zona par a ap).1, kindPendencia p = 2 := by
  intro p hp
  rcases ap with _ | ap
  · simp [blocoAvaliacaoTperm] at hp
  · simp only [blocoAvaliacaoTperm] at hp
    rcases hv : par.Tperm with _ | tperm <;> rw [hv] at hp <;> dsimp only at hp
    · simp at hp
    · split at hp
      · rw [List.mem_singleton] at hp
        subst hp; rfl
      · simp at hp

theorem blocoNpav_kind (zona : String) (par : ParametrosZona) (np : Option Int) :
    ∀ p ∈ (blocoAvaliacaoNpav zona par np).1, kindPendencia p = 3 := by
  intro p hp
  rcases np with _ | np
  · simp [blocoAvaliacaoNpav] at hp
  · simp only [blocoAvaliacaoNpav] at hp
    rcases hv : par.Npav_max with _ | npmax <;> rw [hv] at hp <;> dsimp only at hp
    · simp at hp
    · split at hp
      · rw [List.mem_singleton] at hp
        subst hp; rfl
      · simp at hp

theorem blocoGab_kind (zona : String) (par : ParametrosZona) (alt : Option ℚ) :
    ∀ p ∈ (blocoAvaliacaoGab zona par alt).1, kindPendencia p = 4 := by
  intro p hp
  rcases alt with _ | alt
  · simp [blocoAvaliacaoGab] at hp
  · simp only [blocoAvaliacaoGab] at hp
    rcases hv : par.Gab_max with _ | gabmax <;> rw [hv] at hp <;> dsimp only at hp
    · simp at hp
    · split at hp
      · rw [List.mem_singleton] at hp
        subst hp; rfl
      · simp at hp

/-- C6: for every compliance evaluation that returns a result (positive
parcel area), the conformity flag holds exactly when the violation list
is empty, and each omitted scenario field contributes its advisory and
never a violation of its kind. -/
theorem avaliacaoConformeSseSemPendencias :
    ∀ (zona : String) (par : ParametrosZona) (areaLote : ℚ) (ac ao ap alt : Option ℚ)
      (np : Option Int) (r : ResultadoAvaliacaoZona),
      avaliarEdificacaoNaZona zona par areaLote ac ao ap alt np = Except.ok r →
      ((r.conforme = true ↔ r.pendencias = []) ∧
       (ac = none → Observacao.caNaoAvaliado ∈ r.observacoes ∧
          ∀ p ∈ r.pendencias, kindPendencia p ≠ 0) ∧
       (ao = none → Observacao.tocupNaoAvaliada ∈ r.observacoes ∧
          ∀ p ∈ r.pendencias, kindPendencia p ≠ 1) ∧
       (ap = none → Observacao.tpermNaoAvaliada ∈ r.observacoes ∧
          ∀ p ∈ r.pendencias, kindPendencia p ≠ 2) ∧
       (np = none → Observacao.npavNaoInformado ∈ r.observacoes ∧
          ∀ p ∈ r.pendencias, kindPendencia p ≠ 3) ∧
       (alt = none → Observacao.alturaNaoInformada ∈ r.observacoes ∧
          ∀ p ∈ r.pendencias, kindPendencia p ≠ 4)) := by
  intro zona par areaLote ac ao ap alt np r h
  rw [avaliarEdificacaoNaZona] at h
  split at h
  · exact absurd h (by simp)
  · simp only [Except.ok.injEq] at h
    subst h
    dsimp only
    have hk0 := blocoCA_kind zona par areaLote ac
    have hk1 := blocoTocup_kind zona par areaLote ao
    have hk2 := blocoTperm_kind zona par areaLote ap
    have hk3 := blocoNpav_kind zona par np
    have hk4 := blocoGab_kind zona par alt
    refine ⟨by simp [List.length_eq_zero], ?_, ?_, ?_, ?_, ?_⟩
    · intro hac
      refine ⟨by simp [hac, blocoAvaliacaoCA], ?_⟩
      intro p hp
      simp only [List.mem_append] at hp
      rcases hp with ((((hp | hp) | hp) | hp) | hp)
      · simp [hac, blocoAvaliacaoCA] at hp
      · have := hk1 p hp; omega
      · have := hk2 p hp; omega
      · have := hk3 p hp; omega
      · have := hk4 p hp; omega
    · intro hao
      refine ⟨by simp [hao, blocoAvaliacaoTocup], ?_⟩
      intro p hp
      simp only [List.mem_append] at hp
      rcases hp with ((((hp | hp) | hp) | hp) | hp)
      · have := hk0 p hp; omega
      · simp [hao, blocoAvaliacaoTocup] at hp
      · have := hk2 p hp; omega
      · have := hk3 p hp; omega
      · have := hk4 p hp; omega
    · intro hap
      refine ⟨by simp [hap, blocoAvaliacaoTperm], ?_⟩
      intro p hp
      simp only [List.mem_append] at hp
      rcases hp with ((((hp | hp) | hp) | hp) | hp)
      · have := hk0 p hp; omega
      · have := hk1 p hp; omega
      · simp [hap, blocoAvaliacaoTperm] at hp
      · have := hk3 p hp; omega
      · have := hk4 p hp; omega
    · intro hnp
      refine ⟨by simp [hnp, blocoAvaliacaoNpav], ?_⟩
      intro p hp
      simp only [List.mem_append] at hp
      rcases hp with ((((hp | hp) | hp) | hp) | hp)
      · have := hk0 p hp; omega
      · have := hk1 p hp; omega
      · have := hk2 p hp; omega
      · simp [hnp, blocoAvaliacaoNpav] at hp
      · have := hk4 p hp; omega
    · intro halt
      refine ⟨by simp [halt, blocoAvaliacaoGab], ?_⟩
      intro p hp
      simp only [List.mem_append] at hp
      rcases hp with ((((hp | hp) | hp) | hp) | hp)
      · have := hk0 p hp; omega
      · have := hk1 p hp; omega
      · have := hk2 p hp; omega
      · have := hk3 p hp; omega
      · simp [halt, blocoAvaliacaoGab] at hp

theorem escopo_lookup_nota10 (b1 b2 b3 : Bool) :
    (escopoBoolAnalisarLote b1 b2 b3).lookup "nota10_ativada" = none := by
  simp [escopoBoolAnalisarLote, List.lookup]

theorem escopo_lookup_nota37 (b1 b2 b3 : Bool) :
    (escopoBoolAnalisarLote b1 b2 b3).lookup "nota37_ativada" = none := by
  simp [escopoBoolAnalisarLote, List.lookup]

/-- C7: the compliance evaluation raises InvalidScenario exactly when the
parcel area is not positive, returns a result for every positive area,
and the orchestrator always returns the other sub-results (with the
resolver step degraded, the evaluator is never reached, so its failure
never aborts the pipeline). -/
theorem avaliacaoFalhaSseAreaNaoPositiva :
    (∀ (zona : String) (par : ParametrosZona) (areaLote : ℚ) (ac ao ap alt : Option ℚ)
        (np : Option Int),
      (∃ e, avaliarEdificacaoNaZona zona par areaLote ac ao ap alt np =
        Except.error e) ↔ areaLote ≤ 0) ∧
    (∀ (zona : String) (par : ParametrosZona) (areaLote : ℚ) (ac ao ap alt : Option ℚ)
        (np : Option Int), 0 < areaLote →
      ∃ r, avaliarEdificacaoNaZona zona par areaLote ac ao ap alt np = Except.ok r) ∧
    (∀ (env : AmbienteAnalise) (cenario : CenarioEdificacao) (n10c : Bool),
      env.loteVazio = false →
      ∃ res, analisarLote env cenario n10c = Except.ok res ∧
        res.app = env.resApp ∧ res.risco = env.resRisco ∧
        res.zoneamentoIntersecao.macrozona = env.resZon.macrozona) := by
  refine ⟨?_, ?_, ?_⟩
  · intro zona par areaLote ac ao ap alt np
    rw [avaliarEdificacaoNaZona]
    split
    · next hle => exact iff_of_true ⟨_, rfl⟩ hle
    · next hgt =>
        refine iff_of_false ?_ hgt
        rintro ⟨e, he⟩
        simp at he
  · intro zona par areaLote ac ao ap alt np hpos
    rw [avaliarEdificacaoNaZona]
    split
    · next hle => exact absurd hle (by linarith)
    · exact ⟨_, rfl⟩
  · intro env cenario n10c hv
    set res := analisarLote env cenario n10c with hres
    rw [analisarLote] at hres
    rw [if_neg (by simp [hv])] at hres
    dsimp only at hres
    simp only [escopo_lookup_nota10, escopo_lookup_nota37] at hres
    rcases hcz : env.camadaZoneamento with _ | c <;> rw [hcz] at hres <;>
      dsimp only at hres <;>
      (rw [hres]; exact ⟨_, rfl, rfl, rfl, rfl⟩)

/-- Trivial oracle environment for the boundary classifier. -/
def ambTestadasTrivial : AmbienteTestadas :=
  { comprimento := fun _ => 1
    normalEPontoFora := fun _ => none
    temLotes := false
    temVias := false
    campoNomeLog := none
    campoProprietario := none
    pontoCaiEmAlgumLote := fun _ => false
    obterConfrontante := fun _ => none
    viasCandidatas := fun _ => [] }

/-- A zoning layer with a ZONA field and one feature covering the parcel
with 500 m² in MUQ2. -/
def camadaZonTeste : CamadaZoneamento :=
  ⟨["ZONA"], [⟨false, true, false, 500, "MUQ2"⟩]⟩

/-- Concrete analysis environment: non-empty parcel, zoning layer
available (decomposition succeeds), no parcel layer, no slope raster. -/
def envTeste : AmbienteAnalise :=
  { loteVazio := false
    camadaZoneamento := some camadaZonTeste
    camadaLotes := false
    camadaInclinacao := none
    resZon := {}
    resApp := {}
    resRisco := {}
    ambTestadas := ambTestadasTrivial
    ringsLote := []
    falhaTestadas := false
    mensagemFalhaTestadas := ""
    parametrosPorZona := fun _ => none }

/-- Concrete scenario with a 500 m² parcel. -/
def cenTeste : CenarioEdificacao := { areaLote := 500 }

/-- Witness for C7: failure at a non-positive area, and the pipeline of
the concrete request still returns the other sub-results. -/
theorem avaliacaoFalhaSseAreaNaoPositiva_witness :
    ((∃ e, avaliarEdificacaoNaZona "MUQ2" { codigo := "MUQ2" } (-1) none none none none
        none = Except.error e) ↔ (-1 : ℚ) ≤ 0) ∧
    (∃ res, analisarLote envTeste cenTeste false = Except.ok res ∧
      res.app = envTeste.resApp ∧ res.risco = envTeste.resRisco ∧
      res.zoneamentoIntersecao.macrozona = envTeste.resZon.macrozona) :=
  ⟨avaliacaoFalhaSseAreaNaoPositiva.1 "MUQ2" { codigo := "MUQ2" } (-1) none none none
      none none,
   avaliacaoFalhaSseAreaNaoPositiva.2.2 envTeste cenTeste false (by decide)⟩

/-- Parameter set with only the zone code, all limits unavailable. -/
def parC6 : ParametrosZona := { codigo := "MUQ2" }

/-- Evaluator output on a 500 m² MUQ2 parcel with no scenario fields. -/
def rC6 : ResultadoAvaliacaoZona :=
  { zona := "MUQ2"
    parametros := parC6
    conforme := true
    pendencias := []
    observacoes := [Observacao.caNaoAvaliado, Observacao.tocupNaoAvaliada,
      Observacao.tpermNaoAvaliada, Observacao.npavNaoInformado,
      Observacao.alturaNaoInformada]
    valoresCalculados := [] }

/-- Witness for C6 at the concrete 500 m² evaluation. -/
theorem avaliacaoConformeSseSemPendencias_witness :
    (rC6.conforme = true ↔ rC6.pendencias = []) ∧
    (Observacao.caNaoAvaliado ∈ rC6.observacoes ∧
      ∀ p ∈ rC6.pendencias, kindPendencia p ≠ 0) :=
  ⟨(avaliacaoConformeSseSemPendencias "MUQ2" parC6 500 none none none none none rC6
      (by rfl)).1,
   (avaliacaoConformeSseSemPendencias "MUQ2" parC6 500 none none none none none rC6
      (by rfl)).2.1 rfl⟩

/-- C1: on a request whose zoning decomposition succeeds (one MUQ2
feature of 500 m²), the pipeline still reports no resolved zone and no
numeric evaluation: the two booleans read by the resolver call are not
among the bound locals (escopoBoolAnalisarLote), so the call degrades
and zona_resolvida stays None, contradicting the specified hand-off of
the decomposition to the overlap resolver and evaluator. -/
theorem motorNuncaPopulaZonaResolvida :
    (analisarLote envTeste cenTeste false).map
        (fun r => r.zoneamentoGeom.map (fun g => g.zonas)) =
      Except.ok (some ["MUQ2"]) ∧
    (analisarLote envTeste cenTeste false).map (fun r => r.zonaResolvida) =
      Except.ok none ∧
    (analisarLote envTeste cenTeste false).map (fun r => r.zoneamentoAvaliacao) =
      Except.ok none ∧
    (escopoBoolAnalisarLote false false false).lookup "nota10_ativada" = none := by
  refine ⟨rfl, rfl, rfl, rfl⟩

/-- C2: with no slope raster in the project, the pipeline does not report
the slope analysis as unavailable; it invents a six-band table with fixed
percentages of the parcel area and only flags it with an example-data
message, contradicting the specified behaviour for a missing layer. -/
theorem motorFabricaInclinacaoSemCamada :
    (analisarLote envTeste cenTeste false).map
        (fun r => r.inclinacao.map (fun ri => ri.faixas.length)) =
      Except.ok (some 6) ∧
    (analisarLote envTeste cenTeste false).map
        (fun r => r.inclinacao.map (fun ri => ri.mensagens)) =
      Except.ok (some
        ["Dados de exemplo - Camada de inclinação não encontrada no projeto"]) ∧
    (analisarLote envTeste cenTeste false).map
        (fun r => r.inclinacao.map (fun ri => ri.faixas.map (fun fx => fx.percentual))) =
      Except.ok (some [40, 25, 15, 10, 7, 3]) := by
  refine ⟨rfl, rfl, rfl⟩

/-- When the raster layer exists the slope step reports explicit
unavailability objects in every degraded case (invalid layer, extent not
covering the parcel, no valid pixel), never fabricated data; fabrication
happens only in the orchestrator branch without a layer. -/
theorem inclinacaoIndisponivelCasos (cam : CamadaRasterIncl) (lv : Bool) (al : Option ℚ) :
    (cam.valida = false →
      analisarInclinacaoTerreno cam lv al =
        resultadoErroObjeto "Camada de inclinação inválida") ∧
    (cam.valida = true → lv = false → cam.extentIntersecaoVazia = true →
      analisarInclinacaoTerreno cam lv al =
        resultadoErroObjeto "Raster não cobre a área do lote") := by
  constructor
  · intro hv
    rw [analisarInclinacaoTerreno, if_pos (by simp [hv])]
  · intro hv hl he
    rw [analisarInclinacaoTerreno, if_neg (by simp [hv]), if_neg (by simp [hl]),
      if_pos (by simp [he])]

theorem acumularArea_pos (l : List (String × ℚ)) (cod : String) (a : ℚ)
    (hl : ∀ p ∈ l, 0 < p.2) (ha : 0 < a) :
    ∀ p ∈ acumularArea l cod a, 0 < p.2 := by
  intro p hp
  rw [acumularArea] at hp
  split at hp
  · rw [List.mem_map] at hp
    obtain ⟨q, hq, hqe⟩ := hp
    by_cases hc : q.1 = cod
    · rw [if_pos hc] at hqe
      subst hqe
      exact add_pos (hl q hq) ha
    · rw [if_neg hc] at hqe
      subst hqe
      exact hl q hq
  · rw [List.mem_append] at hp
    rcases hp with hp | hp
    · exact hl p hp
    · rw [List.mem_singleton] at hp
      subst hp
      exact ha

theorem passoAreaZona_pos (acc : List (String × ℚ)) (f : FeicaoZon)
    (hacc : ∀ p ∈ acc, 0 < p.2) :
    ∀ p ∈ passoAreaZona acc f, 0 < p.2 := by
  intro p hp
  rw [passoAreaZona] at hp
  split at hp
  · exact hacc p hp
  split at hp
  · exact hacc p hp
  split at hp
  · exact hacc p hp
  split at hp
  · exact hacc p hp
  next hle =>
    dsimp only at hp
    split at hp
    · exact hacc p hp
    · exact acumularArea_pos acc _ f.areaInter hacc (lt_of_not_le hle) p hp

theorem foldlAreaZona_pos (fs : List FeicaoZon) (acc : List (String × ℚ))
    (hacc : ∀ p ∈ acc, 0 < p.2) :
    ∀ p ∈ fs.foldl passoAreaZona acc, 0 < p.2 := by
  induction fs generalizing acc with
  | nil => exact hacc
  | cons f fs ih =>
      rw [List.foldl_cons]
      exact ih (passoAreaZona acc f) (passoAreaZona_pos acc f hacc)

/-- C9: the geometric decomposition is total and positive: an absent
zoning layer or an undetectable zone-code field yields the empty result
(never an error), and every accumulated zone incidence has strictly
positive area. -/
theorem decomposicaoSemErroEAreasPositivas :
    (∀ (lv : Bool) (cf : Option String),
      calcularZoneamentoIncidente lv none cf = ⟨[], [], 0, []⟩) ∧
    (∀ (lv : Bool) (c : CamadaZoneamento) (cf : Option String),
      detectarCampoCodigoZona (some c) cf = none →
      calcularZoneamentoIncidente lv (some c) cf = ⟨[], [], 0, []⟩) ∧
    (∀ (lv : Bool) (cam : Option CamadaZoneamento) (cf : Option String),
      ∀ p ∈ (calcularZoneamentoIncidente lv cam cf).areasPorZona, 0 < p.2) := by
  refine ⟨?_, ?_, ?_⟩
  · intro lv cf
    cases lv <;> rfl
  · intro lv c cf h
    cases lv with
    | true => rfl
    | false =>
        set r := calcularZoneamentoIncidente false (some c) cf with hr
        rw [calcularZoneamentoIncidente] at hr
        rw [if_neg (by simp)] at hr
        dsimp only at hr
        rw [h] at hr
        exact hr
  · intro lv cam cf p hp
    cases lv with
    | true => simp [calcularZoneamentoIncidente] at hp
    | false =>
        cases cam with
        | none => simp [calcularZoneamentoIncidente] at hp
        | some c =>
            rw [calcularZoneamentoIncidente, if_neg (by simp)] at hp
            dsimp only at hp
            cases hd : detectarCampoCodigoZona (some c) cf with
            | none => rw [hd] at hp; simp at hp
            | some campo =>
                rw [hd] at hp
                dsimp only at hp
                split at hp
                · simp at hp
                · exact foldlAreaZona_pos c.feicoes [] (by simp) p hp

/-- Witness for C9: a layer whose fields contain no zone-code candidate
yields the empty result, and the accumulated MUQ2 incidence of the test
layer is positive. -/
theorem decomposicaoSemErroEAreasPositivas_witness :
    calcularZoneamentoIncidente false (some ⟨["FOO"], []⟩) none = ⟨[], [], 0, []⟩ ∧
    (0 : ℚ) < (("MUQ2", (500 : ℚ))).2 :=
  ⟨decomposicaoSemErroEAreasPositivas.2.1 false ⟨["FOO"], []⟩ none (by decide),
   decomposicaoSemErroEAreasPositivas.2.2 false (some camadaZonTeste) none
     ("MUQ2", 500) (by decide)⟩

theorem classificarSegmento_tipo (env : AmbienteTestadas) (seg : Segmento) :
    (classificarSegmento env seg).2.1 = "TESTADA" ∨
      (classificarSegmento env seg).2.1 = "DIVISA" := by
  rw [classificarSegmento]
  cases env.normalEPontoFora seg with
  | none => exact Or.inr rfl
  | some pt =>
      dsimp only
      split
      · exact Or.inr rfl
      · split
        · exact Or.inl rfl
        · exact Or.inr rfl

theorem passoTestada_inv (env : AmbienteTestadas)
    (h : ∀ s, 0 ≤ env.comprimento s) (l : List (ℕ × Segmento))
    (st0 : List SegmentoTestada × List (String × ℚ) × List (String × ℚ)) :
    (∀ sg ∈ (l.foldl (passoTestada env) st0).1,
      sg ∈ st0.1 ∨
        ((sg.tipoLimite = "TESTADA" ∨ sg.tipoLimite = "DIVISA") ∧
          0 < sg.comprimento)) ∧
    ((l.foldl (passoTestada env) st0).1.map (fun sg => sg.comprimento)).sum =
      (st0.1.map (fun sg => sg.comprimento)).sum +
        (l.map (fun par => env.comprimento par.2)).sum := by
  induction l generalizing st0 with
  | nil => exact ⟨fun sg hsg => Or.inl hsg, by simp⟩
  | cons par l ih =>
      rw [List.foldl_cons]
      by_cases hcomp : env.comprimento par.2 ≤ 0
      · have hz : env.comprimento par.2 = 0 := le_antisymm hcomp (h par.2)
        have hstep : passoTestada env st0 par = st0 := by
          rw [passoTestada]
          exact if_pos hcomp
        rw [hstep]
        refine ⟨(ih st0).1, ?_⟩
        rw [(ih st0).2, List.map_cons, List.sum_cons, hz, zero_add]
      · have hstep : passoTestada env st0 par =
            (st0.1 ++ [{ idSegmento := par.1 + 1
                         geom := par.2
                         comprimento := env.comprimento par.2
                         logradouro := (classificarSegmento env par.2).1
                         tipoLimite := (classificarSegmento env par.2).2.1
                         confrontante := (classificarSegmento env par.2).2.2 }],
             if opTruthy (classificarSegmento env par.2).1 then
               acumularArea st0.2.1 ((classificarSegmento env par.2).1.getD "")
                 (env.comprimento par.2)
             else st0.2.1,
             if (classificarSegmento env par.2).2.1 = "DIVISA" ∧
                 opTruthy (classificarSegmento env par.2).2.2 then
               acumularArea st0.2.2 ((classificarSegmento env par.2).2.2.getD "")
                 (env.comprimento par.2)
             else st0.2.2) := by
          rw [passoTestada]
          dsimp only
          rw [if_neg hcomp]
        rw [hstep]
        set st1 := (st0.1 ++ _, _, _) with hst1
        constructor
        · intro sg hsg
          rcases (ih st1).1 sg hsg with hin | hok
          · rw [hst1] at hin
            rw [List.mem_append] at hin
            rcases hin with hin | hin
            · exact Or.inl hin
            · rw [List.mem_singleton] at hin
              subst hin
              exact Or.inr ⟨classificarSegmento_tipo env par.2, lt_of_not_le hcomp⟩
          · exact Or.inr hok
        · rw [(ih st1).2, hst1]
          simp only [List.map_append, List.sum_append, List.map_cons, List.sum_cons,
            List.map_nil, List.sum_nil]
          ring

/-- C8: with a nonnegative length oracle, every segment returned by the
boundary classifier is TESTADA or DIVISA with strictly positive length
(zero-length segments are skipped, not fatal), and the returned lengths
sum exactly to the length of the segmented border. -/
theorem testadasParticionamPerimetro (env : AmbienteTestadas)
    (aneis : List (List Ponto)) (h : ∀ s, 0 ≤ env.comprimento s) :
    (∀ sg ∈ (calcularTestadasELogradouros env false aneis).segmentos,
      (sg.tipoLimite = "TESTADA" ∨ sg.tipoLimite = "DIVISA") ∧
        0 < sg.comprimento) ∧
    ((calcularTestadasELogradouros env false aneis).segmentos.map
        (fun sg => sg.comprimento)).sum =
      ((segmentarBordaLote aneis).map env.comprimento).sum := by
  have hEq : calcularTestadasELogradouros env false aneis =
      { segmentos :=
          ((segmentarBordaLote aneis).enum.foldl (passoTestada env) ([], [], [])).1
        testadasPorLogradouro :=
          ((segmentarBordaLote aneis).enum.foldl (passoTestada env) ([], [], [])).2.1
        confrontantesPorProprietario :=
          ((segmentarBordaLote aneis).enum.foldl (passoTestada env) ([], [], [])).2.2 } :=
    rfl
  rw [hEq]
  dsimp only
  have hinv := passoTestada_inv env h (segmentarBordaLote aneis).enum ([], [], [])
  constructor
  · intro sg hsg
    rcases hinv.1 sg hsg with hin | hok
    · simp at hin
    · exact ⟨hok.1, hok.2⟩
  · rw [hinv.2]
    simp only [List.map_nil, List.sum_nil, zero_add]
    rw [show (fun par : ℕ × Segmento => env.comprimento par.2) =
        env.comprimento ∘ Prod.snd from rfl]
    rw [← List.map_map, List.enum_map_snd]

/-- Witness for C8 on a triangular ring with unit length oracle. -/
theorem testadasParticionamPerimetro_witness :
    (∀ sg ∈ (calcularTestadasELogradouros ambTestadasTrivial false
        [[((0 : ℚ), (0 : ℚ)), (1, 0), (0, 1), (0, 0)]]).segmentos,
      (sg.tipoLimite = "TESTADA" ∨ sg.tipoLimite = "DIVISA") ∧
        0 < sg.comprimento) ∧
    ((calcularTestadasELogradouros ambTestadasTrivial false
        [[((0 : ℚ), (0 : ℚ)), (1, 0), (0, 1), (0, 0)]]).segmentos.map
        (fun sg => sg.comprimento)).sum =
      ((segmentarBordaLote [[((0 : ℚ), (0 : ℚ)), (1, 0), (0, 1), (0, 0)]]).map
        ambTestadasTrivial.comprimento).sum :=
  testadasParticionamPerimetro ambTestadasTrivial
    [[((0 : ℚ), (0 : ℚ)), (1, 0), (0, 1), (0, 0)]]
    (fun _ => by rw [ambTestadasTrivial]; norm_num)

/-- Spec-side rendering of a numeral written with dot as thousands
separator and comma as decimal separator: the digit groups joined by
dots, then a comma, then the fraction digits. -/
def juntaComPonto : List (List Char) → List Char
  | [] => []
  | [g] => g
  | g :: gs => g ++ '.' :: juntaComPonto gs

/-- The rendered thousands-and-comma numeral string of the claim. -/
def renderizaNumero (gs : List (List Char)) (f : List Char) : String :=
  String.mk (juntaComPonto gs ++ ',' :: f)

/-- Spec-side value of such a numeral: the digits of all groups read as
one integer, plus the fraction digits over the matching power of ten. -/
def valorNumero (gs : List (List Char)) (f : List Char) : ℚ :=
  (natOfDigits gs.flatten : ℚ) + (natOfDigits f : ℚ) / 10 ^ f.length

/-- Well-formed thousands format: at least one nonempty all-digit group
and a nonempty all-digit fraction. -/
def FormatoMilhar (gs : List (List Char)) (f : List Char) : Prop :=
  gs ≠ [] ∧ (∀ g ∈ gs, g ≠ [] ∧ ∀ c ∈ g, c.isDigit = true) ∧
    f ≠ [] ∧ ∀ c ∈ f, c.isDigit = true

theorem dropWhile_of_all {p : Char → Bool} {l : List Char}
    (h : ∀ c ∈ l, p c = false) : l.dropWhile p = l := by
  cases l with
  | nil => rfl
  | cons x t => exact List.dropWhile_cons_of_neg (by simp [h x (by simp)])

theorem pyStrip_id {l : List Char} (h : ∀ c ∈ l, c.isWhitespace = false) :
    pyStrip l = l := by
  rw [pyStrip, dropWhile_of_all h,
    dropWhile_of_all (fun c hc => h c (List.mem_reverse.mp hc)), List.reverse_reverse]

theorem filtroPonto_juntaComPonto {gs : List (List Char)}
    (h : ∀ c ∈ gs.flatten, c ≠ '.') :
    (juntaComPonto gs).filter (fun c => decide (c ≠ '.')) = gs.flatten := by
  induction gs with
  | nil => rfl
  | cons g gs ih =>
      cases gs with
      | nil =>
          rw [show juntaComPonto [g] = g from rfl]
          simp only [List.flatten_cons, List.flatten_nil, List.append_nil] at h ⊢
          exact List.filter_eq_self.mpr (fun c hc => by simp [h c hc])
      | cons g2 gs2 =>
          rw [show juntaComPonto (g :: g2 :: gs2) = g ++ '.' :: juntaComPonto (g2 :: gs2)
            from rfl]
          simp only [List.flatten_cons] at h ⊢
          rw [List.filter_append, List.filter_cons_of_neg (by simp),
            List.filter_eq_self.mpr (fun c hc => by
              simp [h c (List.mem_append.mpr (Or.inl hc))]),
            ih (fun c hc => h c (List.mem_append.mpr (Or.inr hc)))]
          rw [List.flatten_cons]

theorem mapVirgula_id {l : List Char} (h : ∀ c ∈ l, c ≠ ',') :
    l.map (fun c => if c = ',' then '.' else c) = l := by
  induction l with
  | nil => rfl
  | cons x t ih =>
      rw [List.map_cons, if_neg (h x (by simp)),
        ih (fun c hc => h c (List.mem_cons_of_mem x hc))]

theorem splitOnChar_sem_sep {sep : Char} {l : List Char} (h : ∀ c ∈ l, c ≠ sep) :
    splitOnChar sep l = [l] := by
  induction l with
  | nil => rfl
  | cons x t ih =>
      rw [splitOnChar]
      rw [if_neg (h x (by simp)), ih (fun c hc => h c (List.mem_cons_of_mem x hc))]

theorem splitOnChar_corte {sep : Char} {a b : List Char}
    (ha : ∀ c ∈ a, c ≠ sep) (hb : ∀ c ∈ b, c ≠ sep) :
    splitOnChar sep (a ++ sep :: b) = [a, b] := by
  induction a with
  | nil =>
      rw [List.nil_append, splitOnChar, if_pos rfl, splitOnChar_sem_sep hb]
  | cons x t ih =>
      rw [List.cons_append, splitOnChar,
        if_neg (ha x (by simp)), ih (fun c hc => ha c (List.mem_cons_of_mem x hc))]

theorem isDigit_facts {c : Char} (h : c.isDigit = true) :
    c.isWhitespace = false ∧ c ≠ '.' ∧ c ≠ ',' ∧ c ≠ '+' ∧ c ≠ '-' := by
  refine ⟨?_, ?_, ?_, ?_, ?_⟩
  · by_contra hw
    rw [Bool.not_eq_false] at hw
    simp [Char.isWhitespace] at hw
    rcases hw with (((h1 | h1) | h1) | h1) <;> subst h1 <;> exact absurd h (by decide)
  · intro he; subst he; exact absurd h (by decide)
  · intro he; subst he; exact absurd h (by decide)
  · intro he; subst he; exact absurd h (by decide)
  · intro he; subst he; exact absurd h (by decide)

theorem pyFloatChars_corte {a b : List Char} (ha : a ≠ [])
    (had : ∀ c ∈ a, c.isDigit = true) (hbd : ∀ c ∈ b, c.isDigit = true) :
    pyFloatChars (a ++ '.' :: b) =
      some ((natOfDigits a : ℚ) + (natOfDigits b : ℚ) / 10 ^ b.length) := by
  obtain ⟨d, a2, rfl⟩ : ∃ d a2, a = d :: a2 := by
    cases a with
    | nil => exact absurd rfl ha
    | cons d a2 => exact ⟨d, a2, rfl⟩
  have hd : d.isDigit = true := had d (by simp)
  have hsplit : splitOnChar '.' (d :: (a2 ++ '.' :: b)) = [d :: a2, b] := by
    have h2 : splitOnChar '.' ((d :: a2) ++ '.' :: b) = [d :: a2, b] :=
      splitOnChar_corte (fun c hc => (isDigit_facts (had c hc)).2.1)
        (fun c hc => (isDigit_facts (hbd c hc)).2.1)
    rw [List.cons_append] at h2
    exact h2
  rw [pyFloatChars]
  · dsimp only
    rw [List.cons_append, hsplit]
    dsimp only
    rw [if_pos ⟨Or.inl (by simp), by
        rw [List.all_eq_true]; exact fun c hc => had c hc, by
        rw [List.all_eq_true]; exact fun c hc => hbd c hc⟩]
    rw [one_mul]
  · intro resto heq
    have : d = '+' := by injection heq
    exact (isDigit_facts hd).2.2.2.1 this
  · intro resto heq
    have : d = '-' := by injection heq
    exact (isDigit_facts hd).2.2.2.2 this

theorem mem_juntaComPonto {gs : List (List Char)} {c : Char}
    (hc : c ∈ juntaComPonto gs) : c ∈ gs.flatten ∨ c = '.' := by
  induction gs with
  | nil => simp [juntaComPonto] at hc
  | cons g gs ih =>
      cases gs with
      | nil =>
          rw [show juntaComPonto [g] = g from rfl] at hc
          exact Or.inl (by simp [hc])
      | cons g2 gs2 =>
          rw [show juntaComPonto (g :: g2 :: gs2) = g ++ '.' :: juntaComPonto (g2 :: gs2)
            from rfl] at hc
          rw [List.mem_append] at hc
          rcases hc with hc | hc
          · exact Or.inl (by simp [hc])
          · rw [List.mem_cons] at hc
            rcases hc with rfl | hc
            · exact Or.inr rfl
            · rcases ih hc with hin | heq
              · refine Or.inl ?_
                rw [List.flatten_cons, List.mem_append]
                exact Or.inr hin
              · exact Or.inr heq

theorem conv_milhar {gs : List (List Char)} {f : List Char} (h : FormatoMilhar gs f) :
    conv (some (JVal.jstr (renderizaNumero gs f))) = some (valorNumero gs f) := by
  obtain ⟨hgs, hg, hf, hfd⟩ := h
  have hjd : ∀ c ∈ gs.flatten, c.isDigit = true := by
    intro c hc
    rw [List.mem_flatten] at hc
    obtain ⟨g, hgm, hcg⟩ := hc
    exact (hg g hgm).2 c hcg
  have hflat_ne : gs.flatten ≠ [] := by
    cases gs with
    | nil => exact absurd rfl hgs
    | cons g gs2 =>
        rw [List.flatten_cons]
        exact List.append_ne_nil_of_left_ne_nil (hg g (by simp)).1 _
  have hdata : (renderizaNumero gs f).data = juntaComPonto gs ++ ',' :: f := rfl
  have hnws : ∀ c ∈ juntaComPonto gs ++ ',' :: f, c.isWhitespace = false := by
    intro c hc
    rw [List.mem_append] at hc
    rcases hc with hc | hc
    · rcases mem_juntaComPonto hc with hcf | rfl
      · exact (isDigit_facts (hjd c hcf)).1
      · decide
    · rw [List.mem_cons] at hc
      rcases hc with rfl | hc
      · decide
      · exact (isDigit_facts (hfd c hc)).1
  simp only [conv]
  rw [hdata, pyStrip_id hnws]
  have hfil : (juntaComPonto gs ++ ',' :: f).filter (fun c => decide (c ≠ '.')) =
      gs.flatten ++ ',' :: f := by
    rw [List.filter_append,
      filtroPonto_juntaComPonto (fun c hc => (isDigit_facts (hjd c hc)).2.1),
      List.filter_cons_of_pos (by decide),
      List.filter_eq_self.mpr (fun c hc => by simp [(isDigit_facts (hfd c hc)).2.1])]
  rw [hfil]
  have hmap : (gs.flatten ++ ',' :: f).map (fun c => if c = ',' then '.' else c) =
      gs.flatten ++ '.' :: f := by
    rw [List.map_append,
      mapVirgula_id (fun c hc => (isDigit_facts (hjd c hc)).2.2.1), List.map_cons,
      if_pos rfl, mapVirgula_id (fun c hc => (isDigit_facts (hfd c hc)).2.2.1)]
  rw [hmap]
  have hnws2 : ∀ c ∈ gs.flatten ++ '.' :: f, c.isWhitespace = false := by
    intro c hc
    rw [List.mem_append] at hc
    rcases hc with hc | hc
    · exact (isDigit_facts (hjd c hc)).1
    · rw [List.mem_cons] at hc
      rcases hc with rfl | hc
      · decide
      · exact (isDigit_facts (hfd c hc)).1
  rw [pyStrip_id hnws2, pyFloatChars_corte hflat_ne hjd hfd, valorNumero]

theorem mem_dropWhile {p : Char → Bool} {l : List Char} {c : Char}
    (hc : c ∈ l) (hpc : p c = false) : c ∈ l.dropWhile p := by
  induction l with
  | nil => simp at hc
  | cons x t ih =>
      by_cases hx : p x = true
      · rw [List.dropWhile_cons_of_pos hx]
        rw [List.mem_cons] at hc
        rcases hc with rfl | hc
        · rw [hx] at hpc; exact absurd hpc (by simp)
        · exact ih hc
      · rw [List.dropWhile_cons_of_neg hx]
        exact hc

theorem mem_pyStrip {l : List Char} {c : Char} (hc : c ∈ l)
    (hw : c.isWhitespace = false) : c ∈ pyStrip l := by
  rw [pyStrip, List.mem_reverse]
  exact mem_dropWhile (List.mem_reverse.mpr (mem_dropWhile hc hw)) hw

theorem pyInt_none_of_mem {s : String} {c : Char} (hc : c ∈ s.data)
    (hdig : c.isDigit = false) (hws : c.isWhitespace = false)
    (hplus : c ≠ '+') (hminus : c ≠ '-') : pyInt s = none := by
  have hmem : c ∈ pyStrip s.data := mem_pyStrip hc hws
  rcases hshape : pyStrip s.data with _ | ⟨x, t⟩
  · rw [hshape] at hmem; simp at hmem
  · rw [hshape] at hmem
    rw [pyInt, hshape]
    have hct : c ∈ t ∨ c = x := by
      rcases List.mem_cons.mp hmem with rfl | h
      · exact Or.inr rfl
      · exact Or.inl h
    split
    · next hcond =>
        exfalso
        split at hcond
        · next resto heq =>
            obtain ⟨hxe, hte⟩ : x = '+' ∧ t = resto := by
              refine ⟨?_, ?_⟩ <;> injection heq
            rcases hct with hcm | rfl
        -- c in resto
            · rw [List.all_eq_true] at hcond
              rw [hcond.2 c (hte ▸ hcm)] at hdig
              simp at hdig
            · exact hplus hxe
        · next resto heq =>
            obtain ⟨hxe, hte⟩ : x = '-' ∧ t = resto := by
              refine ⟨?_, ?_⟩ <;> injection heq
            rcases hct with hcm | rfl
            · rw [List.all_eq_true] at hcond
              rw [hcond.2 c (hte ▸ hcm)] at hdig
              simp at hdig
            · exact hminus hxe
        · rw [List.all_eq_true] at hcond
          rw [hcond.2 c hmem] at hdig
          simp at hdig
    · rfl

/-- C10: every numeral written with dot as thousands separator and comma
as decimal separator is parsed by the loader conversion to its exact
value, and the loaded record carries that conversion on the seven
float-valued index fields; the two story-count fields however go through
a bare int(), so such a string there makes the whole load fail instead
of parsing. -/
theorem conversaoMilharDecimalCampos :
    (∀ (gs : List (List Char)) (f : List Char), FormatoMilhar gs f →
      conv (some (JVal.jstr (renderizaNumero gs f))) = some (valorNumero gs f)) ∧
    (∀ (codigo : String) (indices : List (String × JVal)) (par : ParametrosZona),
      carregarParametrosEntrada codigo indices = some par →
      par.CA_min = conv (obterIndice indices "CA_min") ∧
      par.CA_bas = conv (obterIndice indices "CA_bas") ∧
      par.CA_max = conv (obterIndice indices "CA_max") ∧
      par.Tperm = conv (obterIndice indices "Tperm") ∧
      par.Tocup = conv (obterIndice indices "Tocup") ∧
      par.Gab_bas = conv (obterIndice indices "Gab_bas") ∧
      par.Gab_max = conv (obterIndice indices "Gab_max")) ∧
    (∀ (codigo : String) (indices : List (String × JVal)) (gs : List (List Char))
        (f : List Char), FormatoMilhar gs f →
      obterIndice indices "Npav_bas" = some (JVal.jstr (renderizaNumero gs f)) →
      carregarParametrosEntrada codigo indices = none) := by
  refine ⟨fun gs f h => conv_milhar h, ?_, ?_⟩
  · intro codigo indices par h
    rw [carregarParametrosEntrada] at h
    cases hnb : convNpav (obterIndice indices "Npav_bas") with
    | error e => rw [hnb] at h; dsimp only at h; exact absurd h (by simp)
    | ok nb =>
        rw [hnb] at h
        cases hnm : convNpav (obterIndice indices "Npav_max") with
        | error e => rw [hnm] at h; dsimp only at h; exact absurd h (by simp)
        | ok nm =>
            rw [hnm] at h
            dsimp only at h
            rw [Option.some_inj] at h
            subst h
            exact ⟨rfl, rfl, rfl, rfl, rfl, rfl, rfl⟩
  · intro codigo indices gs f hfmt hidx
    have hvirg : ',' ∈ (renderizaNumero gs f).data := by
      rw [show (renderizaNumero gs f).data = juntaComPonto gs ++ ',' :: f from rfl]
      rw [List.mem_append]
      exact Or.inr (by simp)
    have hpy : pyInt (renderizaNumero gs f) = none :=
      pyInt_none_of_mem hvirg (by decide) (by decide) (by decide) (by decide)
    have hconv : convNpav (some (JVal.jstr (renderizaNumero gs f))) =
        Except.error () := by
      simp only [convNpav, pyIntDeJVal, hpy]
    rw [carregarParametrosEntrada, hidx, hconv]

/-- Witness for C10: the numeral 1.234,5 in thousands format, and a
Npav_bas entry holding it making the load fail. -/
theorem conversaoMilharDecimalCampos_witness :
    conv (some (JVal.jstr (renderizaNumero [['1'], ['2', '3', '4']] ['5']))) =
      some (valorNumero [['1'], ['2', '3', '4']] ['5']) ∧
    carregarParametrosEntrada "Z"
      [("Npav_bas", JVal.jstr (renderizaNumero [['1'], ['2', '3', '4']] ['5']))] =
      none :=
  ⟨conversaoMilharDecimalCampos.1 [['1'], ['2', '3', '4']] ['5']
     (by rw [FormatoMilhar]; decide),
   conversaoMilharDecimalCampos.2.2 "Z"
     [("Npav_bas", JVal.jstr (renderizaNumero [['1'], ['2', '3', '4']] ['5']))]
     [['1'], ['2', '3', '4']] ['5'] (by rw [FormatoMilhar]; decide) rfl⟩

/-- The nine-field parse claim fails on the story-count fields: a
thousands-separated integer in Npav_bas aborts the whole load. -/
theorem conversaoMilhar_contra :
    carregarParametrosEntrada "Z" [("Npav_bas", JVal.jstr "1.234")] = none ∧
    pyInt "1.234" = none := by
  exact ⟨by decide, by decide⟩
